import Mathlib

/-!
Verification development for the PRD-to-blog pipeline orchestrator
(`backend/app/services/orchestrator.py`), its run state store
(`backend/app/services/run_store.py`), the JSON guardrail helpers
(`backend/app/utils/json_guardrails.py`) and the HTTP entry points
(`backend/app/main.py`).

Modelling conventions:
* Scores and thresholds are rationals (`ℚ`); Python `round(x, 2)` is
  modelled as round-half-to-even at two decimals (`round2`).
* Stage executor calls (CrewAI kickoffs and the grader LLM call) are
  abstracted as an `Oracle`: one response stream per stage kind, indexed
  by how many calls of that kind have already been issued.  A stream
  element is either a raised exception (`Except.error msg`) or the
  already-parsed payload of the stage output (`extract_json` applied to
  the returned text); `none` stands for text that does not parse.
* The run store persists a single run, so it is modelled as the run's
  state record (`RunState`); every store method becomes a pure function
  on it.  The environment-derived rubric configuration is an explicit
  `RubricConfig` value whose defaults are the code's defaults.
* The secondary telemetry sink (`RunRepo`) is best-effort and `None` at
  the call sites in `main.py`; it is omitted.
-/

namespace Shinra

/-- Floor of a rational, computed directly from numerator and denominator. -/
def ratFloor (q : ℚ) : ℤ := q.num.fdiv q.den

/-- Division of a rational by an integer, written in a form the kernel
can evaluate (`Rat.divInt` instead of field division). -/
def qdiv (q : ℚ) (n : ℤ) : ℚ := Rat.divInt q.num (n * q.den)

/-- The kernel-computable division agrees with field division. -/
lemma qdiv_eq_div (q : ℚ) (n : ℤ) : qdiv q n = q / n := by
  rw [qdiv, Rat.divInt_eq_div]
  push_cast
  rw [div_mul_eq_div_div_swap, Rat.num_div_den]

/-- Specialization of `qdiv_eq_div` to the divisor 3 with a rational
numeral on the right-hand side. -/
lemma qdiv_three (q : ℚ) : qdiv q 3 = q / 3 := by
  rw [qdiv_eq_div]
  norm_num

/-- Addition of rationals in a kernel-computable form (the library's
`Rat.add` is irreducible to the kernel). -/
def qadd (a b : ℚ) : ℚ := Rat.divInt (a.num * b.den + b.num * a.den) (a.den * b.den)

/-- Subtraction of rationals in a kernel-computable form. -/
def qsub (a b : ℚ) : ℚ := Rat.divInt (a.num * b.den - b.num * a.den) (a.den * b.den)

/-- Multiplication of rationals in a kernel-computable form. -/
def qmul (a b : ℚ) : ℚ := Rat.divInt (a.num * b.num) (a.den * b.den)

/-- The kernel-computable addition agrees with field addition. -/
lemma qadd_eq_add (a b : ℚ) : qadd a b = a + b := by
  have ha : (a.den : ℚ) ≠ 0 := by exact_mod_cast a.den_nz
  have hb : (b.den : ℚ) ≠ 0 := by exact_mod_cast b.den_nz
  conv_rhs => rw [← Rat.num_div_den a, ← Rat.num_div_den b]
  rw [div_add_div _ _ ha hb, qadd, Rat.divInt_eq_div]
  push_cast
  ring_nf

/-- The kernel-computable subtraction agrees with field subtraction. -/
lemma qsub_eq_sub (a b : ℚ) : qsub a b = a - b := by
  have ha : (a.den : ℚ) ≠ 0 := by exact_mod_cast a.den_nz
  have hb : (b.den : ℚ) ≠ 0 := by exact_mod_cast b.den_nz
  conv_rhs => rw [← Rat.num_div_den a, ← Rat.num_div_den b]
  rw [div_sub_div _ _ ha hb, qsub, Rat.divInt_eq_div]
  push_cast
  ring_nf

/-- The kernel-computable multiplication agrees with field multiplication. -/
lemma qmul_eq_mul (a b : ℚ) : qmul a b = a * b := by
  have ha : (a.den : ℚ) ≠ 0 := by exact_mod_cast a.den_nz
  have hb : (b.den : ℚ) ≠ 0 := by exact_mod_cast b.den_nz
  conv_rhs => rw [← Rat.num_div_den a, ← Rat.num_div_den b]
  rw [div_mul_div_comm, qmul, Rat.divInt_eq_div]
  push_cast
  ring_nf

/-- Round a rational to the nearest integer, ties to even
(the rounding used by Python's built-in `round`). -/
def roundHalfEven (q : ℚ) : ℤ :=
  let f := ratFloor q
  let r := qsub q (f : ℚ)
  if r < Rat.divInt 1 2 then f
  else if Rat.divInt 1 2 < r then f + 1
  else if f % 2 = 0 then f else f + 1

/-- Python `round(x, 2)`: round half-to-even at two decimal places. -/
def round2 (q : ℚ) : ℚ := Rat.divInt (roundHalfEven (qmul q 100)) 100

/-! ## Generic JSON-valued store model (for `RunStore.append_step`) -/

/-- A JSON value as stored in `state.json` by `run_store.py`. -/
inductive JVal where
  | null
  | str (s : String)
  | num (q : ℚ)
  | bool (b : Bool)
  | arr (xs : List JVal)
  | obj (kvs : List (String × JVal))

/-- Model of `dict.get(k)` on a JSON object represented as a key-value list. -/
def lookupJ : List (String × JVal) → String → Option JVal
  | [], _ => none
  | (k, v) :: rest, key => if k = key then some v else lookupJ rest key

/-- Model of `dict[k] = v` on a JSON object: replace the binding or append it. -/
def setJ : List (String × JVal) → String → JVal → List (String × JVal)
  | [], key, v => [(key, v)]
  | (k, w) :: rest, key, v =>
      if k = key then (key, v) :: rest else (k, w) :: setJ rest key v

/-- Embedding of `RunStore.append_step` acting on the run's `steps` object
(run_store.py lines 74-79): when the target key is missing or holds a
non-list value it is silently reset to `[]` before the append. -/
def append_step (steps : List (String × JVal)) (key : String) (value : JVal) :
    List (String × JVal) :=
  let base : List JVal :=
    match lookupJ steps key with
    | some (JVal.arr xs) => xs
    | _ => []
  setJ steps key (JVal.arr (base ++ [value]))

/-! ## Typed run data model -/

/-- One element of `research["sources"]`: `none` fields model absent keys. -/
structure Source where
  id : Option String
  title : Option String
  url : Option String
  query : Option String
  key_facts : List String
  deriving DecidableEq, Repr

/-- A parsed research payload.  `sources = none` models a payload whose
`sources` key is absent or not a list. -/
structure ResearchDoc where
  queries : List String
  sources : Option (List Source)
  summary_facts : List String
  unknowns : List String
  deriving DecidableEq, Repr

/-- A `{id, title, url}` citation derived from a research source. -/
structure Citation where
  id : String
  title : String
  url : String
  deriving DecidableEq, Repr

/-- One fact-check issue record. -/
structure Issue where
  claim : String
  reason : String
  suggested_fix : String
  source_ids : List String
  deriving DecidableEq, Repr

/-- A parsed fact-check payload (`none` fields model absent keys;
`issues = none` also covers a present-but-not-a-list value). -/
structure FCRaw where
  passed : Option Bool
  issues : Option (List Issue)
  rewrite_instructions : Option String
  deriving DecidableEq, Repr

/-- The normalized fact-check result produced by `_normalize_fact_check`. -/
structure FCNorm where
  passed : Bool
  issues : List Issue
  rewrite_instructions : String
  deriving DecidableEq, Repr

/-- An entry of `steps.drafts`. -/
structure Draft where
  iteration : Nat
  text : String
  deriving DecidableEq, Repr

/-- An entry of `steps.fact_checks`. -/
structure FactCheckRec where
  iteration : Nat
  passed : Bool
  issues : List Issue
  rewrite_instructions : String
  deriving DecidableEq, Repr

/-- The raw sub-scores of a grader payload (`none` = key absent or
non-numeric is handled by `clamp_score`). -/
structure RawScores where
  clarity : Option ℚ
  correctness : Option ℚ
  completeness : Option ℚ
  overall : Option ℚ
  deriving DecidableEq, Repr

/-- A parsed grader payload.  `scores` models a nested `"scores"` dict
(`data.get("scores") if isinstance(..., dict) else data`); when it is
`none` the sub-scores are read from the top level (`top`). -/
structure RubricRaw where
  scores : Option RawScores
  top : RawScores
  strengths : Option (List String)
  weaknesses : Option (List String)
  recommendations : Option (List String)
  deriving DecidableEq, Repr

/-- The final numeric scores block of a normalized rubric payload. -/
structure RubricScores where
  clarity : ℚ
  correctness : ℚ
  completeness : ℚ
  overall : ℚ
  deriving DecidableEq, Repr

/-- The normalized rubric payload returned by `_normalize_rubric_payload`,
with the `attempt`/`attempts`/`review_required`/`error` keys that
`_grade_rubric` and `_finalize_with_quality_gate` later attach. -/
structure RubricPayload where
  scores : RubricScores
  passed : Bool
  strengths : List String
  weaknesses : List String
  recommendations : List String
  attempt : Nat := 0
  attempts : Nat := 0
  review_required : Bool := false
  error : Option String := none
  deriving DecidableEq, Repr

/-- The persisted `quality_gate` snapshot. -/
structure QualityGate where
  passed : Bool
  review_required : Bool
  attempts : Nat
  scores : RubricScores
  deriving DecidableEq, Repr

/-- An entry of the `feedback` list. -/
structure FeedbackEntry where
  stage : String
  feedback : String
  deriving DecidableEq, Repr

/-- The persisted run record (`state.json`).  The request inputs are
represented by the only field the orchestrator logic depends on, the PRD
text. -/
structure RunState where
  inputs_prd : String
  status : String
  research : Option ResearchDoc
  drafts : List Draft
  fact_checks : List FactCheckRec
  final : Option String
  rubric : Option RubricPayload
  citations : List Citation
  feedback : List FeedbackEntry
  quality_gate : Option QualityGate
  error : Option String
  logs : List String
  deriving DecidableEq, Repr

/-! ## Run store operations (typed view) -/

/-- Embedding of `RunStore.set_status` (run_store.py lines 81-86): the `error`
argument is stored only when it is a truthy (non-`None`, non-empty)
string; otherwise the previously stored value is left untouched. -/
def set_status (st : RunState) (status : String) (error : Option String) : RunState :=
  { st with
    status := status
    error :=
      match error with
      | some e => if e = "" then st.error else some e
      | none => st.error }

/-- Embedding of `RunStore.log`: append one message to the in-record log list. -/
def RunState.addLog (st : RunState) (message : String) : RunState :=
  { st with logs := st.logs ++ [message] }

/-- Embedding of `RunStore.add_feedback`: append a feedback entry, then log. -/
def add_feedback (st : RunState) (stage : String) (fb : String) : RunState :=
  let entry : FeedbackEntry := { stage := stage, feedback := fb }
  let st := { st with feedback := st.feedback ++ [entry] }
  st.addLog ("User feedback added")

/-! ## JSON guardrails (`json_guardrails.py`) -/

/-- Embedding of `validate_research`: the payload must be a dict with a non-empty
`sources` list in which every source carries an `id` key. -/
def validate_research : Option ResearchDoc → Bool
  | none => false
  | some d =>
      match d.sources with
      | none => false
      | some ss => !ss.isEmpty && ss.all (fun s => s.id.isSome)

/-! ## Orchestrator helpers -/

/-- Constant `MAX_FACT_CHECK_RETRIES` (orchestrator.py line 18). -/
def MAX_FACT_CHECK_RETRIES : Nat := 2

/-- Constant `RUBRIC_SCALE_MIN`. -/
def RUBRIC_SCALE_MIN : ℚ := 1

/-- Constant `RUBRIC_SCALE_MAX`. -/
def RUBRIC_SCALE_MAX : ℚ := 5

/-- Clamp a rational into the rubric scale `[1, 5]`. -/
def clampQ (q : ℚ) : ℚ := max RUBRIC_SCALE_MIN (min RUBRIC_SCALE_MAX q)

/-- Embedding of `_clamp_score`: a missing or non-numeric value becomes the scale
minimum; numeric values are clamped into `[1, 5]`. -/
def clamp_score : Option ℚ → ℚ
  | none => RUBRIC_SCALE_MIN
  | some v => clampQ v

/-- Embedding of `_as_string_list`: keep the trimmed, non-empty strings of a list
value; a missing or non-list value yields the empty default. -/
def as_string_list : Option (List String) → List String
  | none => []
  | some xs => (xs.map String.trim).filter (fun s => s ≠ "")

/-- The rubric configuration read from the environment
(`RUBRIC_MIN_*`, `RUBRIC_MAX_RETRIES`), made explicit with the code's
default values. -/
structure RubricConfig where
  min_clarity : ℚ := 3
  min_correctness : ℚ := 4
  min_completeness : ℚ := 3
  min_overall : ℚ := Rat.divInt 7 2
  max_retries : Nat := 1
  deriving DecidableEq, Repr

/-- The thresholds record built by `_rubric_thresholds`: every floor is
clamped into the rubric scale. -/
structure RubricThresholds where
  min_clarity : ℚ
  min_correctness : ℚ
  min_completeness : ℚ
  min_overall : ℚ
  max_retries : Nat
  deriving DecidableEq, Repr

/-- Embedding of `_rubric_thresholds` (orchestrator.py lines 545-559). -/
def rubric_thresholds (cfg : RubricConfig) : RubricThresholds :=
  { min_clarity := clampQ cfg.min_clarity
    min_correctness := clampQ cfg.min_correctness
    min_completeness := clampQ cfg.min_completeness
    min_overall := clampQ cfg.min_overall
    max_retries := cfg.max_retries }

/-- The empty grader payload substituted for `raw or {}`. -/
def emptyRubricRaw : RubricRaw :=
  { scores := none
    top := { clarity := none, correctness := none, completeness := none, overall := none }
    strengths := none
    weaknesses := none
    recommendations := none }

/-- Embedding of `scores_node = data.get("scores") if isinstance(..., dict) else data`. -/
def scoresNode (d : RubricRaw) : RawScores := d.scores.getD d.top

/-- The scores node of an optional grader payload (after `raw or {}`). -/
def rawScoresOf (raw : Option RubricRaw) : RawScores :=
  scoresNode (raw.getD emptyRubricRaw)

/-- Embedding of `_normalize_rubric_payload` (orchestrator.py lines 585-630). -/
def normalize_rubric_payload (raw : Option RubricRaw) (th : RubricThresholds) :
    RubricPayload :=
  let data := raw.getD emptyRubricRaw
  let sn := scoresNode data
  let clarity := clamp_score sn.clarity
  let correctness := clamp_score sn.correctness
  let completeness := clamp_score sn.completeness
  let overall :=
    match sn.overall with
    | none => round2 (qdiv (qadd (qadd clarity correctness) completeness) 3)
    | some v => round2 (clampQ v)
  let passed : Bool :=
    decide (th.min_clarity ≤ clarity) &&
    decide (th.min_correctness ≤ correctness) &&
    decide (th.min_completeness ≤ completeness) &&
    decide (th.min_overall ≤ overall)
  { scores :=
      { clarity := round2 clarity
        correctness := round2 correctness
        completeness := round2 completeness
        overall := overall }
    passed := passed
    strengths := as_string_list data.strengths
    weaknesses := as_string_list data.weaknesses
    recommendations := as_string_list data.recommendations }

/-- The synthetic parse-failure issue of `_normalize_fact_check`. -/
def parseFailureIssue : Issue :=
  { claim := "parse error"
    reason := "Could not parse fact-check output"
    suggested_fix := "Retry"
    source_ids := [] }

/-- Embedding of `_normalize_fact_check` (orchestrator.py lines 502-522). -/
def normalize_fact_check (fc : Option FCRaw) (default_passed : Bool) : FCNorm :=
  match fc with
  | none =>
      if default_passed then
        { passed := true, issues := [], rewrite_instructions := "" }
      else
        { passed := false
          issues := [parseFailureIssue]
          rewrite_instructions := "Please ensure all claims are properly cited." }
  | some d =>
      { passed := d.passed.getD default_passed
        issues := d.issues.getD []
        rewrite_instructions := d.rewrite_instructions.getD "" }

/-! ## Stage invocation and pipeline context -/

/-- The `step_name` of each stage invocation issued by the orchestrator. -/
inductive StageName where
  | researcher
  | writer
  | fact_checker
  | style_editor
  | rubric_grader
  deriving DecidableEq, Repr

/-- The orchestrator's view during one execution: the persisted run
record plus the ordered trace of stage invocations issued so far. -/
structure Ctx where
  st : RunState
  tr : List StageName
  deriving DecidableEq, Repr

/-- The stage executor abstraction: one response stream per stage kind,
indexed by how many invocations of that kind were already issued.  An
`Except.error` models a raised stage exception; an `ok none` payload
models stage text that `extract_json` cannot parse. -/
structure Oracle where
  research : Nat → Except String (Option ResearchDoc)
  writes : Nat → Except String String
  factChecks : Nat → Except String (Option FCRaw)
  polishes : Nat → Except String String
  grades : Nat → Except String (Option RubricRaw)

/-- Append one log line (`_log` without the telemetry sink). -/
def Ctx.log (c : Ctx) (message : String) : Ctx :=
  { c with st := c.st.addLog message }

/-- Model of `store.update_steps(run_id, "research", d)`. -/
def Ctx.updateResearch (c : Ctx) (d : ResearchDoc) : Ctx :=
  { c with st := { c.st with research := some d } }

/-- Model of `store.set_citations`. -/
def Ctx.setCitations (c : Ctx) (cits : List Citation) : Ctx :=
  { c with st := { c.st with citations := cits } }

/-- Model of `store.append_step(run_id, "drafts", ...)`. -/
def Ctx.appendDraft (c : Ctx) (iteration : Nat) (text : String) : Ctx :=
  let d : Draft := { iteration := iteration, text := text }
  { c with st := { c.st with drafts := c.st.drafts ++ [d] } }

/-- Model of `store.append_step(run_id, "fact_checks", ...)`. -/
def Ctx.appendFactCheck (c : Ctx) (iteration : Nat) (fc : FCNorm) : Ctx :=
  let r : FactCheckRec :=
    { iteration := iteration
      passed := fc.passed
      issues := fc.issues
      rewrite_instructions := fc.rewrite_instructions }
  { c with st := { c.st with fact_checks := c.st.fact_checks ++ [r] } }

/-- Model of `store.update_steps(run_id, "final", ...)`. -/
def Ctx.updateFinal (c : Ctx) (markdown : String) : Ctx :=
  { c with st := { c.st with final := some markdown } }

/-- Model of `store.update_steps(run_id, "rubric", ...)`. -/
def Ctx.updateRubric (c : Ctx) (rp : RubricPayload) : Ctx :=
  { c with st := { c.st with rubric := some rp } }

/-- Model of `store.update(run_id, buildQualityGate ...)`. -/
def Ctx.setQualityGate (c : Ctx) (qg : QualityGate) : Ctx :=
  { c with st := { c.st with quality_gate := some qg } }

/-- Model of `_set_status` (store status update, telemetry omitted). -/
def Ctx.setStatus (c : Ctx) (status : String) (error : Option String) : Ctx :=
  { c with st := set_status c.st status error }

/-- Invoke the researcher stage: record the call in the trace and
consume the next research response; a raised stage exception is logged
(`_kickoff`) and re-raised. -/
def callResearcher (o : Oracle) (c : Ctx) :
    Except (String × Ctx) (Option ResearchDoc × Ctx) :=
  let n := c.tr.count StageName.researcher
  let c := { c with tr := c.tr ++ [StageName.researcher] }
  match o.research n with
  | .ok v => .ok (v, c)
  | .error e => .error (e, c.log ("ERROR in research_task: " ++ e))

/-- Invoke the writer stage (returns the draft text). -/
def callWriter (o : Oracle) (c : Ctx) :
    Except (String × Ctx) (String × Ctx) :=
  let n := c.tr.count StageName.writer
  let c := { c with tr := c.tr ++ [StageName.writer] }
  match o.writes n with
  | .ok t => .ok (t, c)
  | .error e => .error (e, c.log ("ERROR in write_task: " ++ e))

/-- Invoke the fact-checker stage (returns the parsed payload). -/
def callFactChecker (o : Oracle) (c : Ctx) :
    Except (String × Ctx) (Option FCRaw × Ctx) :=
  let n := c.tr.count StageName.fact_checker
  let c := { c with tr := c.tr ++ [StageName.fact_checker] }
  match o.factChecks n with
  | .ok v => .ok (v, c)
  | .error e => .error (e, c.log ("ERROR in fact_check_task: " ++ e))

/-- Invoke the style-editor (polish) stage. -/
def callPolisher (o : Oracle) (c : Ctx) :
    Except (String × Ctx) (String × Ctx) :=
  let n := c.tr.count StageName.style_editor
  let c := { c with tr := c.tr ++ [StageName.style_editor] }
  match o.polishes n with
  | .ok t => .ok (t, c)
  | .error e => .error (e, c.log ("ERROR in polish_task: " ++ e))

/-- Embedding of `_grade_rubric` (orchestrator.py lines 665-777): a
failing grading call is caught and replaced by a synthesized failing
rubric payload carrying the error, still counted as a used attempt. -/
def grade_rubric (o : Oracle) (cfg : RubricConfig) (c : Ctx) (attempt : Nat) :
    RubricPayload × Ctx :=
  let th := rubric_thresholds cfg
  let n := c.tr.count StageName.rubric_grader
  let c := { c with tr := c.tr ++ [StageName.rubric_grader] }
  match o.grades n with
  | .ok parsed =>
      ({ normalize_rubric_payload parsed th with attempt := attempt }, c)
  | .error e =>
      let c := c.log ("Rubric grader failed: " ++ e)
      ({ normalize_rubric_payload none th with
          passed := false, attempt := attempt, error := some e }, c)

/-! ## Fact-check loop -/

/-- Rendering of the revision instructions built at orchestrator.py
lines 207-212 (the JSON serialization of the issue list is abstracted
to a flat rendering; the orchestrator never inspects this string). -/
def revisionText (iteration : Nat) (fc : FCNorm) : String :=
  "REVISION REQUIRED (iteration " ++ toString iteration ++ "): " ++
    fc.rewrite_instructions ++ " " ++
    String.intercalate "; " (fc.issues.map (fun i => i.claim ++ ": " ++ i.reason))

/-- Embedding of the write/fact-check loop of `run_pipeline`
(orchestrator.py lines 132-214).  The Python loop is
`while iteration < 1 + MAX_FACT_CHECK_RETRIES` with `iteration += 1` at
the top of the body; here `fuel = (1 + MAX_FACT_CHECK_RETRIES) - iteration`
counts the remaining admissible guard successes, so the guard becomes
`fuel ≠ 0` and the inner `iteration < 1 + MAX_FACT_CHECK_RETRIES` test
(line 206) becomes `fuel - 1 ≠ 0`.  Returns the context, the last draft
text, the `fact_passed` flag and the final iteration counter. -/
def factCheckLoop (o : Oracle) (c : Ctx) (fuel iteration : Nat)
    (revision_instructions draft_text : String) (fact_passed : Bool) :
    Except (String × Ctx) (Ctx × String × Bool × Nat) :=
  match fuel with
  | 0 => .ok (c, draft_text, fact_passed, iteration)
  | fuel' + 1 =>
    let iter := iteration + 1
    let c := c.log ("Step 2: Writer iteration " ++ toString iter)
    match callWriter o c with
    | .error e => .error e
    | .ok (draft, c) =>
      let c := c.appendDraft iter draft
      let c := c.log ("Draft " ++ toString iter ++ " written")
      let c := c.log ("Step 3: Fact-checker iteration " ++ toString iter)
      match callFactChecker o c with
      | .error e => .error e
      | .ok (raw, c) =>
        let fc := normalize_fact_check raw false
        let c := c.appendFactCheck iter fc
        let c := c.log ("Fact-check " ++ toString iter)
        if fc.passed then
          .ok (c, draft, true, iter)
        else if fuel' ≠ 0 then
          factCheckLoop o c fuel' iter (revisionText iter fc) draft fact_passed
        else
          let c := c.log ("Max retries reached - proceeding with warnings")
          .ok (c, draft, fact_passed, iter)

/-! ## Quality gate loop -/

/-- Rendering of `_build_rubric_revision_instructions` (orchestrator.py
lines 633-653); the orchestrator never inspects this string. -/
def build_rubric_revision_instructions (rubric : RubricPayload) : String :=
  "RUBRIC QUALITY GATE FAILED. Weaknesses: " ++
    String.intercalate "; " rubric.weaknesses ++
    " Revision requirements: " ++
    String.intercalate "; " rubric.recommendations

/-- The result bundle returned by the quality-gate finalization and the
two pipeline entry points: final context, final markdown, the
`fact_passed` flag, the last rubric payload, the `review_required` flag
and the number of polish+grade attempts performed. -/
structure PipelineOk where
  c : Ctx
  final_md : String
  fact_passed : Bool
  rubric : RubricPayload
  review_required : Bool
  attempts : Nat
  deriving Repr

/-- One polish+grade cycle of `_finalize_with_quality_gate`
(orchestrator.py lines 807-853): log, polish the draft, store it as
`steps.final`, grade, attach `review_required=false` and the attempt
counter, and persist the rubric and the `quality_gate` snapshot. -/
def qgAttempt (o : Oracle) (cfg : RubricConfig) (c : Ctx) (attempt1 : Nat) :
    Except (String × Ctx) (Ctx × String × RubricPayload) :=
  let c := c.log ("Step 4: Style polisher attempt " ++ toString attempt1)
  match callPolisher o c with
  | .error e => .error e
  | .ok (final_md, c) =>
    let c := c.updateFinal final_md
    let c := c.log ("Step 5: Rubric grader attempt " ++ toString attempt1)
    let gr := grade_rubric o cfg c attempt1
    let rp := { gr.1 with review_required := false, attempts := attempt1 }
    let c := gr.2
    let c := c.updateRubric rp
    let c := c.setQualityGate
      { passed := rp.passed
        review_required := false
        attempts := attempt1
        scores := rp.scores }
    .ok (c, final_md, rp)

/-- The rollback step of `_finalize_with_quality_gate` (orchestrator.py
lines 875-944): stricter revision instructions, one re-write, one
fact-check of the new draft (recorded in history), the new fact-check
outcome becoming the `fact_passed` flag. -/
def qgRollback (o : Oracle) (rp : RubricPayload) (c : Ctx) :
    Except (String × Ctx) (Ctx × String × Bool) :=
  let c := c.log ("Rubric below threshold. Rolling back to Writer.")
  let _strict_revision := build_rubric_revision_instructions rp
  let writer_iteration := c.st.drafts.length + 1
  match callWriter o c with
  | .error e => .error e
  | .ok (draft2, c) =>
    let c := c.appendDraft writer_iteration draft2
    match callFactChecker o c with
    | .error e => .error e
    | .ok (raw, c) =>
      let fc := normalize_fact_check raw false
      let c := c.appendFactCheck writer_iteration fc
      let c := c.log ("Rubric rollback fact-check")
      .ok (c, draft2, fc.passed)

/-- Embedding of the polish+grade loop of `_finalize_with_quality_gate`
(orchestrator.py lines 806-944).  The Python loop is `while True` with
`rubric_attempt += 1` at the top and two non-exceptional exits: rubric
passed, or `rubric_attempt > max_retries`.  Each rollback iteration
increases `rubric_attempt` by exactly one, so
`remaining = max_retries - attempt` is a structural recursion measure:
`remaining = 0` is precisely the source's `rubric_attempt > max_retries`
test for the incremented counter, and the loop body (`qgAttempt`,
then exit or `qgRollback`) is identical in both arms. -/
def qgLoop (o : Oracle) (cfg : RubricConfig) :
    Nat → Ctx → String → Bool → Nat → Except (String × Ctx) PipelineOk
  | 0, c, _draft_text, fact_passed, attempt =>
    (match qgAttempt o cfg c (attempt + 1) with
     | .error e => .error e
     | .ok (c, final_md, rp) =>
       if rp.passed then
         .ok { c := c, final_md := final_md, fact_passed := fact_passed
               rubric := rp, review_required := false, attempts := attempt + 1 }
       else
         let rp := { rp with review_required := true }
         let c := c.updateRubric rp
         let c := c.setQualityGate
           { passed := false
             review_required := true
             attempts := attempt + 1
             scores := rp.scores }
         .ok { c := c, final_md := final_md, fact_passed := fact_passed
               rubric := rp, review_required := true, attempts := attempt + 1 })
  | remaining' + 1, c, _draft_text, fact_passed, attempt =>
    (match qgAttempt o cfg c (attempt + 1) with
     | .error e => .error e
     | .ok (c, final_md, rp) =>
       if rp.passed then
         .ok { c := c, final_md := final_md, fact_passed := fact_passed
               rubric := rp, review_required := false, attempts := attempt + 1 }
       else
         match qgRollback o rp c with
         | .error e => .error e
         | .ok (c, draft2, fp2) => qgLoop o cfg remaining' c draft2 fp2 (attempt + 1))

/-- Embedding of `_finalize_with_quality_gate`: the loop entered with
`rubric_attempt = 0` and budget `max_retries` (the best-effort
`repo.save_rubric` call after the loop is telemetry and omitted). -/
def finalize_with_quality_gate (o : Oracle) (cfg : RubricConfig) (c : Ctx)
    (draft_text : String) (fact_passed : Bool) :
    Except (String × Ctx) PipelineOk :=
  qgLoop o cfg (rubric_thresholds cfg).max_retries c draft_text fact_passed 0

/-! ## Research handling and full pipeline -/

/-- The synthetic single-source research document substituted at
orchestrator.py lines 102-115 when no dict could be parsed. -/
def syntheticResearch (prd : String) : ResearchDoc :=
  { queries := []
    sources := some
      [{ id := some "S0"
         title := some "PRD"
         url := some "internal://prd"
         query := some ""
         key_facts := [prd.take 500] }]
    summary_facts := [prd.take 500]
    unknowns := [] }

/-- Embedding of the substitution step at orchestrator.py lines 99-115:
the synthetic research document replaces the parsed payload only when
parsing produced no dict at all (`research_dict is None`); a parsed
dict that fails validation is kept unchanged. -/
def researchSubstitute (parsed : Option ResearchDoc) (prd : String) : ResearchDoc :=
  match parsed with
  | none => syntheticResearch prd
  | some d => d

/-- Embedding of the citation derivation at orchestrator.py lines
118-121: the comprehension reads `source["id"]` unconditionally, so a
source without an `id` key raises `KeyError`. -/
def buildCitations : List Source → Except String (List Citation)
  | [] => .ok []
  | s :: rest =>
    match s.id with
    | none => .error ("KeyError: id")
    | some i =>
      match buildCitations rest with
      | .error e => .error e
      | .ok cs =>
        .ok ({ id := i, title := s.title.getD "", url := s.url.getD "" } :: cs)

/-- Embedding of `run_pipeline` (orchestrator.py lines 32-250).  The
web-search setup is environment-dependent logging only and is omitted;
its stage calls are unaffected. -/
def run_pipeline (o : Oracle) (cfg : RubricConfig) (st0 : RunState) :
    Except (String × Ctx) PipelineOk :=
  let st := set_status st0 "RUNNING" none
  let prd := st.inputs_prd
  let c : Ctx := { st := st, tr := [] }
  let c := c.log ("Crew built (PrdBlogCrew)")
  let c := c.log ("Step 1: Researcher starting")
  match callResearcher o c with
  | .error e => .error e
  | .ok (parsed, c) =>
    let c :=
      if validate_research parsed then c
      else c.log ("Research output validation soft-failed, proceeding")
    let research_dict := researchSubstitute parsed prd
    let c := c.updateResearch research_dict
    match buildCitations (research_dict.sources.getD []) with
    | .error e => .error (e, c)
    | .ok cits =>
      let c := c.setCitations cits
      let c := c.log ("Research done")
      match factCheckLoop o c (1 + MAX_FACT_CHECK_RETRIES) 0 "" "" false with
      | .error e => .error e
      | .ok (c, draft_text, fact_passed, _) =>
        match finalize_with_quality_gate o cfg c draft_text fact_passed with
        | .error e => .error e
        | .ok r =>
          let final_status :=
            if r.fact_passed && r.rubric.passed && !r.review_required
            then "DONE" else "DONE_WITH_WARNINGS"
          let c := Ctx.setStatus r.c final_status none
          let c :=
            if r.review_required then
              c.log ("Rubric threshold not met after retries. Escalating to human review.")
            else c
          let c := c.log ("Rubric summary")
          let c := c.log ("Pipeline complete - status=" ++ final_status)
          .ok { r with c := c }

/-! ## Feedback-driven partial re-run -/

/-- The four re-entry stages accepted by the feedback endpoint. -/
inductive FBStage where
  | researcher
  | writer
  | fact_checker
  | style_editor
  deriving DecidableEq, Repr

/-- The stage name string used in persisted feedback entries. -/
def FBStage.str : FBStage → String
  | .researcher => "researcher"
  | .writer => "writer"
  | .fact_checker => "fact_checker"
  | .style_editor => "style_editor"

/-- Embedding of the researcher branch of `run_pipeline_with_feedback`
(orchestrator.py lines 292-348). -/
def fbResearch (o : Oracle) (c : Ctx) (prd : String) :
    Except (String × Ctx) (ResearchDoc × Ctx) :=
  let c := c.log ("Re-running Step 1: Researcher with feedback")
  match callResearcher o c with
  | .error e => .error e
  | .ok (parsed, c) =>
    let c :=
      if validate_research parsed then c
      else c.log ("Research output validation soft-failed")
    let d := researchSubstitute parsed prd
    let c := c.updateResearch d
    match buildCitations (d.sources.getD []) with
    | .error e => .error (e, c)
    | .ok cits =>
      let c := c.setCitations cits
      let c := c.log ("Research re-done with feedback")
      .ok (d, c)

/-- Embedding of the writer branch of `run_pipeline_with_feedback`
(orchestrator.py lines 350-413): one write and one fact-check against
the new draft, with the lenient `default_passed=True` normalization.
`snap_drafts` is the draft count of the state snapshot passed in by the
endpoint (the iteration numbers are computed from the snapshot, not the
live store). -/
def fbWrite (o : Oracle) (c : Ctx) (snap_drafts : Nat) :
    Except (String × Ctx) Ctx :=
  let current_iteration := snap_drafts + 1
  let c := c.log ("Re-running Step 2: Writer with feedback")
  match callWriter o c with
  | .error e => .error e
  | .ok (draft, c) =>
    let c := c.appendDraft current_iteration draft
    let c := c.log ("Draft revised based on feedback")
    let c := c.log ("Re-running Step 3: Fact-checker")
    match callFactChecker o c with
    | .error e => .error e
    | .ok (raw, c) =>
      let fc := normalize_fact_check raw true
      let c := c.appendFactCheck current_iteration fc
      let c := c.log ("Fact-check re-run")
      .ok c

/-- Embedding of the fact-checker branch of `run_pipeline_with_feedback`
(orchestrator.py lines 415-459): re-check the latest snapshot draft
alone, raising when no draft exists, with the lenient normalization. -/
def fbFactCheck (o : Oracle) (c : Ctx) (snap : RunState) :
    Except (String × Ctx) (String × Ctx) :=
  match snap.drafts.getLast? with
  | none => .error ("No draft available to fact-check", c)
  | some last =>
    let c := c.log ("Re-running Step 3: Fact-checker with feedback")
    match callFactChecker o c with
    | .error e => .error e
    | .ok (raw, c) =>
      let fc := normalize_fact_check raw true
      let current_iteration := snap.fact_checks.length + 1
      let c := c.appendFactCheck current_iteration fc
      let c := c.log ("Fact-check re-run with feedback")
      .ok (last.text, c)

/-- The stage-dependent preparatory phase of `run_pipeline_with_feedback`
(orchestrator.py lines 289-473): researcher re-run for `researcher`,
write+fact-check for `researcher`/`writer`, standalone fact-check for
`fact_checker`, nothing for `style_editor`; the draft handed to the
quality gate is read from the stale snapshot in all non-`fact_checker`
branches.  Returns the research dict, the draft text and the context. -/
def fbPrep (o : Oracle) (snap : RunState) (prd : String) (stage : FBStage) (c : Ctx) :
    Except (String × Ctx) (Option ResearchDoc × String × Ctx) :=
  let step1 : Except (String × Ctx) (Option ResearchDoc × Ctx) :=
    if stage = FBStage.researcher then
      match fbResearch o c prd with
      | .error e => .error e
      | .ok (d, c) => .ok (some d, c)
    else .ok (snap.research, c)
  match step1 with
  | .error e => .error e
  | .ok (research_dict, c) =>
    let step2 : Except (String × Ctx) Ctx :=
      if stage = FBStage.researcher ∨ stage = FBStage.writer then
        fbWrite o c snap.drafts.length
      else .ok c
    match step2 with
    | .error e => .error e
    | .ok c =>
      let step3 : Except (String × Ctx) (String × Ctx) :=
        if stage = FBStage.fact_checker then fbFactCheck o c snap
        else .ok ((snap.drafts.getLast?.map Draft.text).getD "", c)
      match step3 with
      | .error e => .error e
      | .ok (draft_text, c) => .ok (research_dict, draft_text, c)

/-- Embedding of `run_pipeline_with_feedback` (orchestrator.py lines
253-499).  `snap` is the state snapshot loaded by the endpoint before
the run (the Python code reads `steps` from its `state` argument, which
is not refreshed by later store writes), while `st0` is the live store
record at entry. -/
def run_pipeline_with_feedback (o : Oracle) (cfg : RubricConfig)
    (snap st0 : RunState) (stage : FBStage) (feedback : String) :
    Except (String × Ctx) PipelineOk :=
  let st := set_status st0 "RUNNING" none
  let c : Ctx := { st := st, tr := [] }
  let c := c.log ("Re-running from stage: " ++ stage.str)
  let c := c.log ("User feedback: " ++ feedback)
  let prd := snap.inputs_prd
  match fbPrep o snap prd stage c with
  | .error e => .error e
  | .ok (research_dict, draft_text, c) =>
    let _research_for_prompt := research_dict.getD (syntheticResearch prd)
    let fact_passed :=
      match c.st.fact_checks.getLast? with
      | some fc => fc.passed
      | none => true
    match finalize_with_quality_gate o cfg c draft_text fact_passed with
    | .error e => .error e
    | .ok r =>
      let final_status :=
        if r.fact_passed && r.rubric.passed && !r.review_required
        then "DONE" else "DONE_WITH_WARNINGS"
      let c := Ctx.setStatus r.c final_status none
      let c := c.log ("Pipeline re-run complete with user feedback - status=" ++ final_status)
      .ok { r with c := c }

/-! ## HTTP entry points (`main.py`) -/

/-- The outcome of an entry-point call: a completed run record, a 404,
a 409 conflict, or a 500 produced by an uncaught pipeline exception. -/
inductive ApiOutcome where
  | done (st : RunState)
  | notFound
  | conflict
  | serverError (msg : String)
  deriving Repr

/-- Embedding of `POST /runs/run_id/execute` (main.py lines 138-150):
404 when the run is unknown, 409 when its status is RUNNING, otherwise
run the pipeline; an uncaught exception sets status ERROR with the
message and returns 500.  Returns the outcome, the resulting store
record and the trace of stage invocations issued. -/
def execute_run (o : Oracle) (cfg : RubricConfig) (store : Option RunState) :
    ApiOutcome × Option RunState × List StageName :=
  match store with
  | none => (ApiOutcome.notFound, none, [])
  | some st =>
    if st.status = "RUNNING" then (ApiOutcome.conflict, some st, [])
    else
      match run_pipeline o cfg st with
      | .ok r => (ApiOutcome.done r.c.st, some r.c.st, r.c.tr)
      | .error (e, c) =>
        let st2 := set_status c.st "ERROR" (some e)
        (ApiOutcome.serverError e, some st2, c.tr)

/-- Embedding of `POST /runs/run_id/feedback` (main.py lines 153-186):
404 when the run is unknown, 409 when its status is RUNNING (checked
before anything is written), then `store.add_feedback` followed by the
feedback pipeline on the stale snapshot; an uncaught exception sets
status ERROR and returns 500.  The stage-validity check always passes
for the typed `FBStage`. -/
def submit_feedback (o : Oracle) (cfg : RubricConfig) (store : Option RunState)
    (stage : FBStage) (fb : String) :
    ApiOutcome × Option RunState × List StageName :=
  match store with
  | none => (ApiOutcome.notFound, none, [])
  | some st =>
    if st.status = "RUNNING" then (ApiOutcome.conflict, some st, [])
    else
      let stored := add_feedback st stage.str fb
      match run_pipeline_with_feedback o cfg st stored stage fb with
      | .ok r => (ApiOutcome.done r.c.st, some r.c.st, r.c.tr)
      | .error (e, c) =>
        let st2 := set_status c.st "ERROR" (some e)
        (ApiOutcome.serverError e, some st2, c.tr)

/-! ## Projection lemmas for store operations -/

@[simp]
lemma addLog_status (st : RunState) (m : String) : (st.addLog m).status = st.status := rfl

@[simp]
lemma addLog_error (st : RunState) (m : String) : (st.addLog m).error = st.error := rfl

@[simp]
lemma addLog_research (st : RunState) (m : String) : (st.addLog m).research = st.research := rfl

@[simp]
lemma addLog_drafts (st : RunState) (m : String) : (st.addLog m).drafts = st.drafts := rfl

@[simp]
lemma addLog_fact_checks (st : RunState) (m : String) :
    (st.addLog m).fact_checks = st.fact_checks := rfl

@[simp]
lemma addLog_quality_gate (st : RunState) (m : String) :
    (st.addLog m).quality_gate = st.quality_gate := rfl

@[simp]
lemma set_status_status (st : RunState) (s : String) (e : Option String) :
    (set_status st s e).status = s := rfl

@[simp]
lemma set_status_error_none (st : RunState) (s : String) :
    (set_status st s none).error = st.error := rfl

@[simp]
lemma set_status_quality_gate (st : RunState) (s : String) (e : Option String) :
    (set_status st s e).quality_gate = st.quality_gate := rfl

@[simp]
lemma ctx_log_st (c : Ctx) (m : String) : (c.log m).st = c.st.addLog m := rfl

@[simp]
lemma ctx_log_tr (c : Ctx) (m : String) : (c.log m).tr = c.tr := rfl

@[simp]
lemma ctx_updateResearch_st_error (c : Ctx) (d : ResearchDoc) :
    (c.updateResearch d).st.error = c.st.error := rfl

@[simp]
lemma ctx_updateResearch_tr (c : Ctx) (d : ResearchDoc) :
    (c.updateResearch d).tr = c.tr := rfl

@[simp]
lemma ctx_setCitations_st_error (c : Ctx) (l : List Citation) :
    (c.setCitations l).st.error = c.st.error := rfl

@[simp]
lemma ctx_setCitations_tr (c : Ctx) (l : List Citation) :
    (c.setCitations l).tr = c.tr := rfl

@[simp]
lemma ctx_appendDraft_st_error (c : Ctx) (i : Nat) (t : String) :
    (c.appendDraft i t).st.error = c.st.error := rfl

@[simp]
lemma ctx_appendDraft_tr (c : Ctx) (i : Nat) (t : String) :
    (c.appendDraft i t).tr = c.tr := rfl

@[simp]
lemma ctx_appendDraft_drafts (c : Ctx) (i : Nat) (t : String) :
    (c.appendDraft i t).st.drafts = c.st.drafts ++ [{ iteration := i, text := t }] := rfl

@[simp]
lemma ctx_appendFactCheck_st_error (c : Ctx) (i : Nat) (fc : FCNorm) :
    (c.appendFactCheck i fc).st.error = c.st.error := rfl

@[simp]
lemma ctx_appendFactCheck_tr (c : Ctx) (i : Nat) (fc : FCNorm) :
    (c.appendFactCheck i fc).tr = c.tr := rfl

@[simp]
lemma ctx_updateFinal_st_error (c : Ctx) (m : String) :
    (c.updateFinal m).st.error = c.st.error := rfl

@[simp]
lemma ctx_updateFinal_tr (c : Ctx) (m : String) : (c.updateFinal m).tr = c.tr := rfl

@[simp]
lemma ctx_updateRubric_st_error (c : Ctx) (rp : RubricPayload) :
    (c.updateRubric rp).st.error = c.st.error := rfl

@[simp]
lemma ctx_updateRubric_tr (c : Ctx) (rp : RubricPayload) :
    (c.updateRubric rp).tr = c.tr := rfl

@[simp]
lemma ctx_setQualityGate_st_error (c : Ctx) (qg : QualityGate) :
    (c.setQualityGate qg).st.error = c.st.error := rfl

@[simp]
lemma ctx_setQualityGate_tr (c : Ctx) (qg : QualityGate) :
    (c.setQualityGate qg).tr = c.tr := rfl

@[simp]
lemma ctx_setQualityGate_qg (c : Ctx) (qg : QualityGate) :
    (c.setQualityGate qg).st.quality_gate = some qg := rfl

@[simp]
lemma ctx_setStatus_tr (c : Ctx) (s : String) (e : Option String) :
    (c.setStatus s e).tr = c.tr := rfl

@[simp]
lemma ctx_setStatus_st (c : Ctx) (s : String) (e : Option String) :
    (c.setStatus s e).st = set_status c.st s e := rfl

@[simp]
lemma ctx_appendDraft_qg (c : Ctx) (i : Nat) (t : String) :
    (c.appendDraft i t).st.quality_gate = c.st.quality_gate := rfl

@[simp]
lemma ctx_appendFactCheck_qg (c : Ctx) (i : Nat) (fc : FCNorm) :
    (c.appendFactCheck i fc).st.quality_gate = c.st.quality_gate := rfl

@[simp]
lemma ctx_updateFinal_qg (c : Ctx) (m : String) :
    (c.updateFinal m).st.quality_gate = c.st.quality_gate := rfl

@[simp]
lemma ctx_updateRubric_qg (c : Ctx) (rp : RubricPayload) :
    (c.updateRubric rp).st.quality_gate = c.st.quality_gate := rfl

@[simp]
lemma ctx_updateResearch_qg (c : Ctx) (d : ResearchDoc) :
    (c.updateResearch d).st.quality_gate = c.st.quality_gate := rfl

@[simp]
lemma ctx_setCitations_qg (c : Ctx) (l : List Citation) :
    (c.setCitations l).st.quality_gate = c.st.quality_gate := rfl

@[simp]
lemma ctx_updateFinal_drafts (c : Ctx) (m : String) :
    (c.updateFinal m).st.drafts = c.st.drafts := rfl

@[simp]
lemma ctx_updateRubric_drafts (c : Ctx) (rp : RubricPayload) :
    (c.updateRubric rp).st.drafts = c.st.drafts := rfl

@[simp]
lemma ctx_setQualityGate_drafts (c : Ctx) (qg : QualityGate) :
    (c.setQualityGate qg).st.drafts = c.st.drafts := rfl

@[simp]
lemma ctx_appendFactCheck_drafts (c : Ctx) (i : Nat) (fc : FCNorm) :
    (c.appendFactCheck i fc).st.drafts = c.st.drafts := rfl

@[simp]
lemma ctx_updateFinal_fact_checks (c : Ctx) (m : String) :
    (c.updateFinal m).st.fact_checks = c.st.fact_checks := rfl

@[simp]
lemma ctx_updateRubric_fact_checks (c : Ctx) (rp : RubricPayload) :
    (c.updateRubric rp).st.fact_checks = c.st.fact_checks := rfl

@[simp]
lemma ctx_setQualityGate_fact_checks (c : Ctx) (qg : QualityGate) :
    (c.setQualityGate qg).st.fact_checks = c.st.fact_checks := rfl

@[simp]
lemma ctx_appendDraft_fact_checks (c : Ctx) (i : Nat) (t : String) :
    (c.appendDraft i t).st.fact_checks = c.st.fact_checks := rfl

@[simp]
lemma ctx_appendFactCheck_fact_checks (c : Ctx) (i : Nat) (fc : FCNorm) :
    (c.appendFactCheck i fc).st.fact_checks =
      c.st.fact_checks ++
        [{ iteration := i
           passed := fc.passed
           issues := fc.issues
           rewrite_instructions := fc.rewrite_instructions }] := rfl

@[simp]
lemma ctx_updateResearch_drafts (c : Ctx) (d : ResearchDoc) :
    (c.updateResearch d).st.drafts = c.st.drafts := rfl

@[simp]
lemma ctx_setCitations_drafts (c : Ctx) (l : List Citation) :
    (c.setCitations l).st.drafts = c.st.drafts := rfl

@[simp]
lemma ctx_updateResearch_fact_checks (c : Ctx) (d : ResearchDoc) :
    (c.updateResearch d).st.fact_checks = c.st.fact_checks := rfl

@[simp]
lemma ctx_setCitations_fact_checks (c : Ctx) (l : List Citation) :
    (c.setCitations l).st.fact_checks = c.st.fact_checks := rfl

/-! ## Shape lemmas for the stage-call helpers -/

lemma callResearcher_ok {o : Oracle} {c c' : Ctx} {v : Option ResearchDoc}
    (h : callResearcher o c = .ok (v, c')) :
    c' = { c with tr := c.tr ++ [StageName.researcher] } := by
  unfold callResearcher at h
  cases ho : o.research (c.tr.count StageName.researcher) <;>
    simp only [ho] at h <;> simp_all

lemma callWriter_ok {o : Oracle} {c c' : Ctx} {t : String}
    (h : callWriter o c = .ok (t, c')) :
    c' = { c with tr := c.tr ++ [StageName.writer] } := by
  unfold callWriter at h
  cases ho : o.writes (c.tr.count StageName.writer) <;>
    simp only [ho] at h <;> simp_all

lemma callFactChecker_ok {o : Oracle} {c c' : Ctx} {v : Option FCRaw}
    (h : callFactChecker o c = .ok (v, c')) :
    c' = { c with tr := c.tr ++ [StageName.fact_checker] } := by
  unfold callFactChecker at h
  cases ho : o.factChecks (c.tr.count StageName.fact_checker) <;>
    simp only [ho] at h <;> simp_all

lemma callPolisher_ok {o : Oracle} {c c' : Ctx} {t : String}
    (h : callPolisher o c = .ok (t, c')) :
    c' = { c with tr := c.tr ++ [StageName.style_editor] } := by
  unfold callPolisher at h
  cases ho : o.polishes (c.tr.count StageName.style_editor) <;>
    simp only [ho] at h <;> simp_all

@[simp]
lemma grade_rubric_st_error (o : Oracle) (cfg : RubricConfig) (c : Ctx) (a : Nat) :
    (grade_rubric o cfg c a).2.st.error = c.st.error := by
  unfold grade_rubric
  cases ho : o.grades (c.tr.count StageName.rubric_grader) <;> simp [ho]

@[simp]
lemma grade_rubric_st_quality_gate (o : Oracle) (cfg : RubricConfig) (c : Ctx) (a : Nat) :
    (grade_rubric o cfg c a).2.st.quality_gate = c.st.quality_gate := by
  unfold grade_rubric
  cases ho : o.grades (c.tr.count StageName.rubric_grader) <;> simp [ho]

@[simp]
lemma grade_rubric_tr (o : Oracle) (cfg : RubricConfig) (c : Ctx) (a : Nat) :
    (grade_rubric o cfg c a).2.tr = c.tr ++ [StageName.rubric_grader] := by
  unfold grade_rubric
  cases ho : o.grades (c.tr.count StageName.rubric_grader) <;> simp [ho]

@[simp]
lemma grade_rubric_st_drafts (o : Oracle) (cfg : RubricConfig) (c : Ctx) (a : Nat) :
    (grade_rubric o cfg c a).2.st.drafts = c.st.drafts := by
  unfold grade_rubric
  cases ho : o.grades (c.tr.count StageName.rubric_grader) <;> simp [ho]

@[simp]
lemma grade_rubric_st_fact_checks (o : Oracle) (cfg : RubricConfig) (c : Ctx) (a : Nat) :
    (grade_rubric o cfg c a).2.st.fact_checks = c.st.fact_checks := by
  unfold grade_rubric
  cases ho : o.grades (c.tr.count StageName.rubric_grader) <;> simp [ho]

@[simp]
lemma grade_rubric_st_status (o : Oracle) (cfg : RubricConfig) (c : Ctx) (a : Nat) :
    (grade_rubric o cfg c a).2.st.status = c.st.status := by
  unfold grade_rubric
  cases ho : o.grades (c.tr.count StageName.rubric_grader) <;> simp [ho]

/-! ## Claim C4: rubric pass condition -/

/-- The default rubric configuration (all environment overrides absent). -/
def defaultCfg : RubricConfig := {}

/-- The C4 example payload: scores 4 / 3 / 4 with overall 3.67 supplied. -/
def exampleC4 : RubricRaw :=
  { scores := none
    top :=
      { clarity := some 4
        correctness := some 3
        completeness := some 4
        overall := some (Rat.divInt 367 100) }
    strengths := none
    weaknesses := none
    recommendations := none }

/-- C4: a normalized rubric result has `passed = true` iff all four
values meet or exceed their configured floors — the three clamped
sub-scores against their floors and the resulting `overall` against
`min_overall` (this is exactly the comparison `_normalize_rubric_payload`
performs); with the default thresholds (3, 4, 3, 3.5) and scores
clarity 4, correctness 3, completeness 4, overall 3.67, the result has
`passed = false` because correctness is below its floor of 4. -/
theorem claim_C4_rubric_passed_iff :
    (∀ (raw : Option RubricRaw) (th : RubricThresholds),
      (normalize_rubric_payload raw th).passed = true ↔
        (th.min_clarity ≤ clamp_score (rawScoresOf raw).clarity ∧
         th.min_correctness ≤ clamp_score (rawScoresOf raw).correctness ∧
         th.min_completeness ≤ clamp_score (rawScoresOf raw).completeness ∧
         th.min_overall ≤ (normalize_rubric_payload raw th).scores.overall)) ∧
    ((normalize_rubric_payload (some exampleC4) (rubric_thresholds defaultCfg)).passed = false ∧
      clamp_score (rawScoresOf (some exampleC4)).correctness <
        (rubric_thresholds defaultCfg).min_correctness) := by
  constructor
  · intro raw th
    simp only [normalize_rubric_payload, rawScoresOf, Bool.and_eq_true, decide_eq_true_eq]
    tauto
  · constructor <;> decide

/-! ## Claim C5: computed overall score -/

/-- The C5 example payload: scores 4 / 5 / 3 with no overall supplied. -/
def exampleC5 : RubricRaw :=
  { scores := none
    top :=
      { clarity := some 4
        correctness := some 5
        completeness := some 3
        overall := none }
    strengths := none
    weaknesses := none
    recommendations := none }

/-- C5: when the grader supplies no overall score, the normalized
overall equals `round2` of the unweighted mean of the three clamped
sub-scores. -/
theorem claim_C5_overall_mean (raw : Option RubricRaw) (th : RubricThresholds)
    (h : (rawScoresOf raw).overall = none) :
    (normalize_rubric_payload raw th).scores.overall =
      round2 ((clamp_score (rawScoresOf raw).clarity +
               clamp_score (rawScoresOf raw).correctness +
               clamp_score (rawScoresOf raw).completeness) / 3) := by
  simp only [normalize_rubric_payload, rawScoresOf] at h ⊢
  rw [h]
  rw [qadd_eq_add, qadd_eq_add, qdiv_three]

/-- Witness for C5: clarity 4, correctness 5, completeness 3 and no
supplied overall yield overall = 4.0. -/
theorem claim_C5_witness :
    (rawScoresOf (some exampleC5)).overall = none ∧
    (normalize_rubric_payload (some exampleC5) (rubric_thresholds defaultCfg)).scores.overall = 4 := by
  refine ⟨rfl, ?_⟩
  rw [claim_C5_overall_mean (some exampleC5) (rubric_thresholds defaultCfg) rfl]
  rw [← qdiv_three, ← qadd_eq_add, ← qadd_eq_add]
  decide

/-! ## Structure lemmas for the fact-check loop -/

lemma factCheckLoop_ok_spec (o : Oracle) :
    ∀ (fuel : Nat) (c : Ctx) (iteration : Nat) (rev dt : String) (fp : Bool)
      (c' : Ctx) (d' : String) (fp' : Bool) (it' : Nat),
      factCheckLoop o c fuel iteration rev dt fp = .ok (c', d', fp', it') →
      ∃ added : List FactCheckRec,
        c'.st.fact_checks = c.st.fact_checks ++ added ∧
        added.length ≤ fuel ∧
        (fuel ≠ 0 → added ≠ []) ∧
        c'.tr.count StageName.writer = c.tr.count StageName.writer + added.length ∧
        c'.st.drafts.length = c.st.drafts.length + added.length ∧
        (∀ fc ∈ added.dropLast, fc.passed = false) ∧
        c'.st.error = c.st.error ∧
        c'.st.quality_gate = c.st.quality_gate := by
  intro fuel
  induction fuel with
  | zero =>
    intro c iteration rev dt fp c' d' fp' it' h
    simp only [factCheckLoop] at h
    obtain ⟨rfl, rfl, rfl, rfl⟩ :
        c = c' ∧ dt = d' ∧ fp = fp' ∧ iteration = it' := by
      cases h
      exact ⟨rfl, rfl, rfl, rfl⟩
    exact ⟨[], by simp⟩
  | succ n ih =>
    intro c iteration rev dt fp c' d' fp' it' h
    simp only [factCheckLoop] at h
    split at h
    · exact absurd h (by simp)
    · rename_i draft c1 heqW
      have hc1 := callWriter_ok heqW
      subst hc1
      split at h
      · exact absurd h (by simp)
      · rename_i raw c2 heqF
        have hc2 := callFactChecker_ok heqF
        subst hc2
        split at h
        · -- fact check passed: loop exits with this single iteration
          rename_i hpassed
          cases h
          refine ⟨[{ iteration := iteration + 1,
                     passed := (normalize_fact_check raw false).passed,
                     issues := (normalize_fact_check raw false).issues,
                     rewrite_instructions :=
                       (normalize_fact_check raw false).rewrite_instructions }], ?_⟩
          simp [Ctx.appendFactCheck, Ctx.appendDraft, Ctx.log, RunState.addLog,
            List.count_append]
        · split at h
          · -- retry: recurse with the revision instructions
            rename_i hpassed hfuel
            obtain ⟨added', hfc', hlen', hne', hcount', hdrafts', hprop', herr', hqgp'⟩ :=
              ih _ _ _ _ _ _ _ _ _ h
            have hne2 : added' ≠ [] := hne' hfuel
            refine ⟨{ iteration := iteration + 1,
                      passed := (normalize_fact_check raw false).passed,
                      issues := (normalize_fact_check raw false).issues,
                      rewrite_instructions :=
                        (normalize_fact_check raw false).rewrite_instructions } :: added', ?_, ?_, ?_, ?_, ?_, ?_, ?_, ?_⟩
            · simpa [Ctx.appendFactCheck, Ctx.appendDraft, Ctx.log, RunState.addLog] using hfc'
            · simpa using Nat.succ_le_succ hlen'
            · simp
            · simp only [hcount']
              simp [Ctx.appendFactCheck, Ctx.appendDraft, Ctx.log, RunState.addLog,
                List.count_append]
              omega
            · simp only [hdrafts']
              simp [Ctx.appendFactCheck, Ctx.appendDraft, Ctx.log, RunState.addLog]
              omega
            · intro fc hfc
              obtain ⟨b, t, rfl⟩ : ∃ b t, added' = b :: t := by
                cases added' with
                | nil => exact absurd rfl hne2
                | cons b t => exact ⟨b, t, rfl⟩
              rw [List.dropLast_cons₂] at hfc
              rcases List.mem_cons.mp hfc with hfc | hfc
              · subst hfc
                simpa using hpassed
              · exact hprop' _ hfc
            · rw [herr']
              simp [Ctx.appendFactCheck, Ctx.appendDraft, Ctx.log, RunState.addLog]
            · rw [hqgp']
              simp [Ctx.appendFactCheck, Ctx.appendDraft, Ctx.log, RunState.addLog]
          · -- retry budget exhausted: exit with fact_passed unchanged
            rename_i hpassed hfuel
            cases h
            refine ⟨[{ iteration := iteration + 1,
                       passed := (normalize_fact_check raw false).passed,
                       issues := (normalize_fact_check raw false).issues,
                       rewrite_instructions :=
                         (normalize_fact_check raw false).rewrite_instructions }], ?_⟩
            simp [Ctx.appendFactCheck, Ctx.appendDraft, Ctx.log, RunState.addLog,
              List.count_append]

lemma callWriter_error {o : Oracle} {c : Ctx} {e : String} {c' : Ctx}
    (h : callWriter o c = .error (e, c')) :
    c'.tr = c.tr ++ [StageName.writer] := by
  unfold callWriter at h
  cases ho : o.writes (c.tr.count StageName.writer) with
  | ok v =>
    simp only [ho] at h
    exact absurd h (by simp)
  | error e2 =>
    simp only [ho, Except.error.injEq, Prod.mk.injEq] at h
    obtain ⟨h1, h2⟩ := h
    subst h2
    rfl

lemma callFactChecker_error {o : Oracle} {c : Ctx} {e : String} {c' : Ctx}
    (h : callFactChecker o c = .error (e, c')) :
    c'.tr = c.tr ++ [StageName.fact_checker] := by
  unfold callFactChecker at h
  cases ho : o.factChecks (c.tr.count StageName.fact_checker) with
  | ok v =>
    simp only [ho] at h
    exact absurd h (by simp)
  | error e2 =>
    simp only [ho, Except.error.injEq, Prod.mk.injEq] at h
    obtain ⟨h1, h2⟩ := h
    subst h2
    rfl

lemma callPolisher_error {o : Oracle} {c : Ctx} {e : String} {c' : Ctx}
    (h : callPolisher o c = .error (e, c')) :
    c'.tr = c.tr ++ [StageName.style_editor] := by
  unfold callPolisher at h
  cases ho : o.polishes (c.tr.count StageName.style_editor) with
  | ok v =>
    simp only [ho] at h
    exact absurd h (by simp)
  | error e2 =>
    simp only [ho, Except.error.injEq, Prod.mk.injEq] at h
    obtain ⟨h1, h2⟩ := h
    subst h2
    rfl

lemma callResearcher_error {o : Oracle} {c : Ctx} {e : String} {c' : Ctx}
    (h : callResearcher o c = .error (e, c')) :
    c'.tr = c.tr ++ [StageName.researcher] := by
  unfold callResearcher at h
  cases ho : o.research (c.tr.count StageName.researcher) with
  | ok v =>
    simp only [ho] at h
    exact absurd h (by simp)
  | error e2 =>
    simp only [ho, Except.error.injEq, Prod.mk.injEq] at h
    obtain ⟨h1, h2⟩ := h
    subst h2
    rfl

lemma factCheckLoop_error_spec (o : Oracle) :
    ∀ (fuel : Nat) (c : Ctx) (iteration : Nat) (rev dt : String) (fp : Bool)
      (e : String) (c' : Ctx),
      factCheckLoop o c fuel iteration rev dt fp = .error (e, c') →
      c'.tr.count StageName.writer ≤ c.tr.count StageName.writer + fuel := by
  intro fuel
  induction fuel with
  | zero =>
    intro c iteration rev dt fp e c' h
    simp only [factCheckLoop] at h
    exact absurd h (by simp)
  | succ n ih =>
    intro c iteration rev dt fp e c' h
    simp only [factCheckLoop] at h
    split at h
    · rename_i heqW
      cases h
      have := callWriter_error heqW
      simp only [this, ctx_log_tr]
      simp [List.count_append]
    · rename_i draft c1 heqW
      have hc1 := callWriter_ok heqW
      subst hc1
      split at h
      · rename_i heqF
        cases h
        have := callFactChecker_error heqF
        simp only [this]
        simp [List.count_append]
      · rename_i raw c2 heqF
        have hc2 := callFactChecker_ok heqF
        subst hc2
        split at h
        · exact absurd h (by simp)
        · split at h
          · have hrec := ih _ _ _ _ _ _ _ h
            simp only [ctx_appendFactCheck_tr, ctx_log_tr, ctx_appendDraft_tr] at hrec
            simp only [List.count_append] at hrec ⊢
            simp at hrec ⊢
            omega
          · exact absurd h (by simp)

/-! ## Claim C2: fact-check loop bound and early exit -/

/-- C2: for the write/fact-check loop of `run_pipeline` (entered with
iteration 0 and budget `1 + MAX_FACT_CHECK_RETRIES`), at most
`1 + MAX_FACT_CHECK_RETRIES = 3` write invocations are issued — whether
the loop completes or is aborted by a stage exception — and the loop
exits as soon as a fact-check passes: every recorded fact-check before
the last one has `passed = false`. -/
theorem claim_C2_fact_check_loop_bound :
    (1 + MAX_FACT_CHECK_RETRIES = 3) ∧
    (∀ (o : Oracle) (c c' : Ctx) (d' : String) (fp' : Bool) (it' : Nat),
      factCheckLoop o c (1 + MAX_FACT_CHECK_RETRIES) 0 "" "" false = .ok (c', d', fp', it') →
      c'.tr.count StageName.writer ≤ c.tr.count StageName.writer + 3 ∧
      c'.st.drafts.length ≤ c.st.drafts.length + 3 ∧
      (∀ fc ∈ (c'.st.fact_checks.drop c.st.fact_checks.length).dropLast,
        fc.passed = false)) ∧
    (∀ (o : Oracle) (c : Ctx) (e : String) (c' : Ctx),
      factCheckLoop o c (1 + MAX_FACT_CHECK_RETRIES) 0 "" "" false = .error (e, c') →
      c'.tr.count StageName.writer ≤ c.tr.count StageName.writer + 3) := by
  refine ⟨rfl, ?_, ?_⟩
  · intro o c c' d' fp' it' h
    obtain ⟨added, hfc, hlen, _, hcount, hdrafts, hprop, _, _⟩ :=
      factCheckLoop_ok_spec o _ _ _ _ _ _ _ _ _ _ h
    have hM : MAX_FACT_CHECK_RETRIES = 2 := rfl
    refine ⟨by omega, by omega, ?_⟩
    rw [hfc, List.drop_left]
    exact hprop
  · intro o c e c' h
    exact factCheckLoop_error_spec o _ _ _ _ _ _ _ _ h

/-! ## Shared concrete fixtures -/

/-- A run record in status PENDING with empty history. -/
def runPending : RunState :=
  { inputs_prd := "my prd"
    status := "PENDING"
    research := none
    drafts := []
    fact_checks := []
    final := none
    rubric := none
    citations := []
    feedback := []
    quality_gate := none
    error := none
    logs := [] }

/-- The initial orchestrator context over `runPending`. -/
def ctxInit : Ctx := { st := runPending, tr := [] }

/-- A fully co-operative stage executor: valid research with one source,
drafts that fact-check clean, and a grader returning perfect scores. -/
def oracleHappy : Oracle :=
  { research := fun _ => .ok (some
      { queries := []
        sources := some
          [{ id := some "S1", title := some "T", url := some "U",
             query := none, key_facts := [] }]
        summary_facts := []
        unknowns := [] })
    writes := fun _ => .ok "draft text"
    factChecks := fun _ => .ok (some
      { passed := some true, issues := some [], rewrite_instructions := some "" })
    polishes := fun _ => .ok "polished text"
    grades := fun _ => .ok (some
      { scores := none
        top := { clarity := some 5, correctness := some 5,
                 completeness := some 5, overall := none }
        strengths := none, weaknesses := none, recommendations := none }) }

/-- Discriminator for `Except` results usable in decidable statements. -/
def exceptOk : Except ε α → Bool
  | .ok _ => true
  | .error _ => false

/-- Witness for C2: the loop under the co-operative executor completes
within the write budget and with no failed-then-ignored fact check. -/
theorem claim_C2_witness :
    ∃ c' d' fp' it',
      factCheckLoop oracleHappy ctxInit (1 + MAX_FACT_CHECK_RETRIES) 0 "" "" false =
        .ok (c', d', fp', it') ∧
      c'.tr.count StageName.writer ≤ ctxInit.tr.count StageName.writer + 3 ∧
      (∀ fc ∈ (c'.st.fact_checks.drop ctxInit.st.fact_checks.length).dropLast,
        fc.passed = false) := by
  cases hres : factCheckLoop oracleHappy ctxInit (1 + MAX_FACT_CHECK_RETRIES) 0 "" "" false with
  | error p =>
    have hok : exceptOk
        (factCheckLoop oracleHappy ctxInit (1 + MAX_FACT_CHECK_RETRIES) 0 "" "" false) = true := by
      decide
    rw [hres] at hok
    simp [exceptOk] at hok
  | ok quad =>
    obtain ⟨c', d', fp', it'⟩ := quad
    have hmain := claim_C2_fact_check_loop_bound.2.1 oracleHappy ctxInit c' d' fp' it' hres
    exact ⟨c', d', fp', it', rfl, hmain.1, hmain.2.2⟩

/-! ## Structure lemmas for the quality-gate loop -/

lemma qgAttempt_ok {o : Oracle} {cfg : RubricConfig} {c : Ctx} {a1 : Nat}
    {c' : Ctx} {fm : String} {rp : RubricPayload}
    (h : qgAttempt o cfg c a1 = .ok (c', fm, rp)) :
    c'.st.error = c.st.error ∧
    c'.st.quality_gate = some
      { passed := rp.passed, review_required := false, attempts := a1,
        scores := rp.scores } ∧
    c'.tr = c.tr ++ [StageName.style_editor, StageName.rubric_grader] ∧
    c'.st.drafts = c.st.drafts ∧
    c'.st.fact_checks = c.st.fact_checks ∧
    rp.attempts = a1 ∧ rp.review_required = false := by
  simp only [qgAttempt] at h
  split at h
  · exact absurd h (by simp)
  · rename_i fm2 c1 heqP
    have hc1 := callPolisher_ok heqP
    subst hc1
    cases h
    refine ⟨?_, rfl, ?_, ?_, ?_, rfl, rfl⟩ <;> simp

lemma qgAttempt_error {o : Oracle} {cfg : RubricConfig} {c : Ctx} {a1 : Nat}
    {e : String} {c' : Ctx}
    (h : qgAttempt o cfg c a1 = .error (e, c')) :
    c'.tr = c.tr ++ [StageName.style_editor] := by
  simp only [qgAttempt] at h
  split at h
  · rename_i p heqP
    cases h
    have := callPolisher_error heqP
    simpa using this
  · exact absurd h (by simp)

lemma qgRollback_ok {o : Oracle} {rp : RubricPayload} {c : Ctx}
    {c' : Ctx} {d2 : String} {fp2 : Bool}
    (h : qgRollback o rp c = .ok (c', d2, fp2)) :
    c'.st.error = c.st.error ∧
    c'.st.quality_gate = c.st.quality_gate ∧
    c'.tr = c.tr ++ [StageName.writer, StageName.fact_checker] := by
  simp only [qgRollback] at h
  split at h
  · exact absurd h (by simp)
  · rename_i draft2 c1 heqW
    have hc1 := callWriter_ok heqW
    subst hc1
    split at h
    · exact absurd h (by simp)
    · rename_i raw c2 heqF
      have hc2 := callFactChecker_ok heqF
      subst hc2
      cases h
      refine ⟨by simp, by simp, by simp⟩

lemma qgRollback_error {o : Oracle} {rp : RubricPayload} {c : Ctx}
    {e : String} {c' : Ctx}
    (h : qgRollback o rp c = .error (e, c')) :
    c'.tr = c.tr ++ [StageName.writer] ∨
    c'.tr = c.tr ++ [StageName.writer, StageName.fact_checker] := by
  simp only [qgRollback] at h
  split at h
  · rename_i p heqW
    cases h
    have := callWriter_error heqW
    left
    simpa using this
  · rename_i draft2 c1 heqW
    have hc1 := callWriter_ok heqW
    subst hc1
    split at h
    · rename_i p heqF
      cases h
      have := callFactChecker_error heqF
      right
      simpa using this
    · exact absurd h (by simp)

lemma qgLoop_ok_spec (o : Oracle) (cfg : RubricConfig) :
    ∀ (rem : Nat) (c : Ctx) (d : String) (fp : Bool) (a : Nat) (r : PipelineOk),
      qgLoop o cfg rem c d fp a = .ok r →
      r.c.st.error = c.st.error ∧
      (∃ k, r.attempts = a + k ∧ 1 ≤ k ∧ k ≤ rem + 1 ∧
        r.c.tr.count StageName.style_editor = c.tr.count StageName.style_editor + k ∧
        r.c.tr.count StageName.rubric_grader = c.tr.count StageName.rubric_grader + k) ∧
      (∃ qg, r.c.st.quality_gate = some qg ∧ qg.attempts = r.attempts ∧
        qg.review_required = r.review_required ∧ qg.passed = r.rubric.passed ∧
        qg.scores = r.rubric.scores) ∧
      (∃ t, r.c.tr = c.tr ++ (StageName.style_editor :: t) ∧
        ∀ s ∈ t, s ≠ StageName.researcher) := by
  intro rem
  induction rem with
  | zero =>
    intro c d fp a r h
    simp only [qgLoop] at h
    split at h
    · exact absurd h (by simp)
    · rename_i c1 fm rp heqA
      obtain ⟨hae, haq, hat, had, haf, hrat, hrr⟩ := qgAttempt_ok heqA
      split at h
      · -- rubric passed
        cases h
        refine ⟨hae, ⟨1, rfl, le_refl 1, by omega, ?_, ?_⟩,
          ⟨_, haq, rfl, rfl, rfl, rfl⟩, ⟨[StageName.rubric_grader], ?_, by simp⟩⟩
        · rw [hat]
          simp [List.count_append]
        · rw [hat]
          simp [List.count_append]
        · rw [hat]
      · -- rubric failed, budget exhausted: review required
        rename_i hpass
        cases h
        simp only [Bool.not_eq_true] at hpass
        refine ⟨by simp [hae], ⟨1, rfl, le_refl 1, by omega, ?_, ?_⟩,
          ⟨{ passed := false, review_required := true, attempts := a + 1,
             scores := rp.scores }, by simp, rfl, rfl, by simp [hpass], rfl⟩,
          ⟨[StageName.rubric_grader], ?_, by simp⟩⟩
        · simp only [ctx_setQualityGate_tr, ctx_updateRubric_tr]
          rw [hat]
          simp [List.count_append]
        · simp only [ctx_setQualityGate_tr, ctx_updateRubric_tr]
          rw [hat]
          simp [List.count_append]
        · simp only [ctx_setQualityGate_tr, ctx_updateRubric_tr]
          rw [hat]
  | succ n ih =>
    intro c d fp a r h
    simp only [qgLoop] at h
    split at h
    · exact absurd h (by simp)
    · rename_i c1 fm rp heqA
      obtain ⟨hae, haq, hat, had, haf, hrat, hrr⟩ := qgAttempt_ok heqA
      split at h
      · -- rubric passed
        cases h
        refine ⟨hae, ⟨1, rfl, le_refl 1, by omega, ?_, ?_⟩,
          ⟨_, haq, rfl, rfl, rfl, rfl⟩, ⟨[StageName.rubric_grader], ?_, by simp⟩⟩
        · rw [hat]
          simp [List.count_append]
        · rw [hat]
          simp [List.count_append]
        · rw [hat]
      · -- rubric failed with budget remaining: roll back and recurse
        split at h
        · exact absurd h (by simp)
        · rename_i c2 d2 fp2 heqR
          obtain ⟨hre, hrq, hrt⟩ := qgRollback_ok heqR
          obtain ⟨herr, ⟨k, hak, hk1, hk2, hcs, hcg⟩, hqg, ⟨t, htr, htp⟩⟩ :=
            ih _ _ _ _ _ h
          refine ⟨?_, ⟨k + 1, by omega, by omega, by omega, ?_, ?_⟩, hqg, ?_⟩
          · rw [herr, hre, hae]
          · rw [hcs, hrt, hat]
            simp [List.count_append]
            omega
          · rw [hcg, hrt, hat]
            simp [List.count_append]
            omega
          · refine ⟨StageName.rubric_grader :: StageName.writer ::
              StageName.fact_checker :: (StageName.style_editor :: t), ?_, ?_⟩
            · rw [htr, hrt, hat]
              simp
            · intro x hx
              simp only [List.mem_cons] at hx
              rcases hx with rfl | rfl | rfl | rfl | hx
              · simp
              · simp
              · simp
              · simp
              · exact htp x hx

lemma qgLoop_error_spec (o : Oracle) (cfg : RubricConfig) :
    ∀ (rem : Nat) (c : Ctx) (d : String) (fp : Bool) (a : Nat) (e : String) (c' : Ctx),
      qgLoop o cfg rem c d fp a = .error (e, c') →
      c'.tr.count StageName.style_editor ≤ c.tr.count StageName.style_editor + rem + 1 := by
  intro rem
  induction rem with
  | zero =>
    intro c d fp a e c' h
    simp only [qgLoop] at h
    split at h
    · rename_i p heqA
      cases h
      have := qgAttempt_error heqA
      rw [this]
      simp [List.count_append]
    · split at h
      · exact absurd h (by simp)
      · exact absurd h (by simp)
  | succ n ih =>
    intro c d fp a e c' h
    simp only [qgLoop] at h
    split at h
    · rename_i p heqA
      cases h
      have := qgAttempt_error heqA
      rw [this]
      simp [List.count_append]
    · rename_i c1 fm rp heqA
      obtain ⟨hae, haq, hat, had, haf, hrat, hrr⟩ := qgAttempt_ok heqA
      split at h
      · exact absurd h (by simp)
      · split at h
        · rename_i p heqR
          cases h
          rcases qgRollback_error heqR with ht | ht <;>
            · rw [ht, hat]
              simp [List.count_append]
        · rename_i c2 d2 fp2 heqR
          obtain ⟨hre, hrq, hrt⟩ := qgRollback_ok heqR
          have hrec := ih _ _ _ _ _ _ h
          rw [hrt, hat] at hrec
          simp [List.count_append] at hrec
          omega

/-! ## Claim C3: quality-gate attempt bound and attempts accounting -/

/-- C3: the quality-gate finalization performs at most
`max_retries + 1` polish+grade cycles (also when aborted by a stage
exception), and on completion the persisted `quality_gate.attempts`
equals the number of polish invocations actually performed in that
finalize call (which equals the returned attempt counter). -/
theorem claim_C3_quality_gate_attempts :
    (∀ (o : Oracle) (cfg : RubricConfig) (c : Ctx) (d : String) (fp : Bool)
        (r : PipelineOk),
      finalize_with_quality_gate o cfg c d fp = .ok r →
      r.attempts ≤ (rubric_thresholds cfg).max_retries + 1 ∧
      1 ≤ r.attempts ∧
      r.c.tr.count StageName.style_editor =
        c.tr.count StageName.style_editor + r.attempts ∧
      r.c.tr.count StageName.rubric_grader =
        c.tr.count StageName.rubric_grader + r.attempts ∧
      (∃ qg, r.c.st.quality_gate = some qg ∧ qg.attempts = r.attempts)) ∧
    (∀ (o : Oracle) (cfg : RubricConfig) (c : Ctx) (d : String) (fp : Bool)
        (e : String) (c' : Ctx),
      finalize_with_quality_gate o cfg c d fp = .error (e, c') →
      c'.tr.count StageName.style_editor ≤
        c.tr.count StageName.style_editor + (rubric_thresholds cfg).max_retries + 1) := by
  constructor
  · intro o cfg c d fp r h
    obtain ⟨herr, ⟨k, hak, hk1, hk2, hcs, hcg⟩, ⟨qg, hqg, hqga, _, _, _⟩, _⟩ :=
      qgLoop_ok_spec o cfg _ _ _ _ _ _ h
    refine ⟨by omega, by omega, by omega, by omega, ⟨qg, hqg, hqga⟩⟩
  · intro o cfg c d fp e c' h
    have := qgLoop_error_spec o cfg _ _ _ _ _ _ _ h
    omega

/-- Witness for C3: under the co-operative executor the finalization
completes with a persisted attempts counter within the default budget. -/
theorem claim_C3_witness :
    ∃ r, finalize_with_quality_gate oracleHappy defaultCfg ctxInit "draft" true = .ok r ∧
      r.attempts ≤ (rubric_thresholds defaultCfg).max_retries + 1 ∧
      (∃ qg, r.c.st.quality_gate = some qg ∧ qg.attempts = r.attempts) := by
  cases hres : finalize_with_quality_gate oracleHappy defaultCfg ctxInit "draft" true with
  | error p =>
    have hok : exceptOk
        (finalize_with_quality_gate oracleHappy defaultCfg ctxInit "draft" true) = true := by
      decide
    rw [hres] at hok
    simp [exceptOk] at hok
  | ok r =>
    have hmain := claim_C3_quality_gate_attempts.1 oracleHappy defaultCfg ctxInit
      "draft" true r hres
    exact ⟨r, rfl, hmain.1, hmain.2.2.2.2⟩

/-! ## Terminal-status lemmas for the two pipelines -/

lemma run_pipeline_ok_spec {o : Oracle} {cfg : RubricConfig} {st0 : RunState}
    {r : PipelineOk} (h : run_pipeline o cfg st0 = .ok r) :
    r.c.st.status =
      (if r.fact_passed && r.rubric.passed && !r.review_required
       then "DONE" else "DONE_WITH_WARNINGS") ∧
    r.c.st.error = st0.error := by
  simp only [run_pipeline] at h
  split at h
  · exact absurd h (by simp)
  · rename_i parsed c1 heqR
    have hc1 := callResearcher_ok heqR
    subst hc1
    split at h
    · exact absurd h (by simp)
    · rename_i cits heqC
      split at h
      · exact absurd h (by simp)
      · rename_i c2 dt fpv it heqL
        split at h
        · exact absurd h (by simp)
        · rename_i r0 heqF
          obtain ⟨herr0, _, _, _⟩ := qgLoop_ok_spec o cfg _ _ _ _ _ _ heqF
          obtain ⟨_, _, _, _, _, _, _, herrL, _⟩ :=
            factCheckLoop_ok_spec o _ _ _ _ _ _ _ _ _ _ heqL
          cases h
          constructor
          · cases hb : r0.review_required <;> simp [hb]
          · cases hv : validate_research parsed <;>
              cases hb : r0.review_required <;>
                simp [hb, hv, herr0, herrL]

lemma fbResearch_ok_error {o : Oracle} {c : Ctx} {prd : String}
    {d : ResearchDoc} {c' : Ctx} (h : fbResearch o c prd = .ok (d, c')) :
    c'.st.error = c.st.error := by
  simp only [fbResearch] at h
  split at h
  · exact absurd h (by simp)
  · rename_i parsed c1 heqR
    have hc1 := callResearcher_ok heqR
    subst hc1
    split at h
    · exact absurd h (by simp)
    · rename_i cits heqC
      cases h
      cases hv : validate_research parsed <;> simp [hv]

lemma fbWrite_ok_error {o : Oracle} {c : Ctx} {n : Nat} {c' : Ctx}
    (h : fbWrite o c n = .ok c') :
    c'.st.error = c.st.error := by
  simp only [fbWrite] at h
  split at h
  · exact absurd h (by simp)
  · rename_i draft c1 heqW
    have hc1 := callWriter_ok heqW
    subst hc1
    split at h
    · exact absurd h (by simp)
    · rename_i raw c2 heqF
      have hc2 := callFactChecker_ok heqF
      subst hc2
      cases h
      simp

lemma fbFactCheck_ok_error {o : Oracle} {c : Ctx} {snap : RunState}
    {t : String} {c' : Ctx} (h : fbFactCheck o c snap = .ok (t, c')) :
    c'.st.error = c.st.error := by
  simp only [fbFactCheck] at h
  split at h
  · exact absurd h (by simp)
  · rename_i last heqD
    split at h
    · exact absurd h (by simp)
    · rename_i raw c1 heqF
      have hc1 := callFactChecker_ok heqF
      subst hc1
      cases h
      simp

lemma fbPrep_ok_error {o : Oracle} {snap : RunState} {prd : String}
    {stage : FBStage} {c : Ctx} {rd : Option ResearchDoc} {dt : String} {c' : Ctx}
    (h : fbPrep o snap prd stage c = .ok (rd, dt, c')) :
    c'.st.error = c.st.error := by
  cases stage with
  | researcher =>
    simp only [fbPrep, reduceCtorEq, if_true, if_false, true_or, or_false,
      reduceIte] at h
    split at h
    · exact absurd h (by simp)
    · rename_i rd1 c1 heqR
      split at h
      · exact absurd h (by simp)
      · rename_i c2 heqW
        cases h
        split at heqR
        · exact absurd heqR (by simp)
        · rename_i d cR heqRR
          cases heqR
          rw [fbWrite_ok_error heqW, fbResearch_ok_error heqRR]
  | writer =>
    simp only [fbPrep, reduceCtorEq, if_true, if_false, true_or, or_false,
      reduceIte] at h
    split at h
    · exact absurd h (by simp)
    · rename_i c2 heqW
      cases h
      rw [fbWrite_ok_error heqW]
  | fact_checker =>
    simp only [fbPrep, reduceCtorEq, if_true, if_false, true_or, or_false,
      reduceIte] at h
    split at h
    · exact absurd h (by simp)
    · rename_i t c2 heqF
      cases h
      rw [fbFactCheck_ok_error heqF]
  | style_editor =>
    simp only [fbPrep, reduceCtorEq, if_true, if_false, true_or, or_false,
      reduceIte] at h
    cases h
    rfl

/-- For the `style_editor` stage the preparatory phase runs no stage at
all: it hands the snapshot research and the latest snapshot draft
directly to the quality gate. -/
lemma fbPrep_style_editor (o : Oracle) (snap : RunState) (prd : String) (c : Ctx) :
    fbPrep o snap prd FBStage.style_editor c =
      .ok (snap.research, (snap.drafts.getLast?.map Draft.text).getD "", c) := by
  simp [fbPrep]

lemma run_pipeline_with_feedback_ok_spec {o : Oracle} {cfg : RubricConfig}
    {snap st0 : RunState} {stage : FBStage} {fb : String} {r : PipelineOk}
    (h : run_pipeline_with_feedback o cfg snap st0 stage fb = .ok r) :
    r.c.st.status =
      (if r.fact_passed && r.rubric.passed && !r.review_required
       then "DONE" else "DONE_WITH_WARNINGS") ∧
    r.c.st.error = st0.error ∧
    (∃ qg, r.c.st.quality_gate = some qg ∧ qg.attempts = r.attempts ∧
      1 ≤ r.attempts) := by
  simp only [run_pipeline_with_feedback] at h
  split at h
  · exact absurd h (by simp)
  · rename_i rd dt c1 heqP
    split at h
    · exact absurd h (by simp)
    · rename_i r0 heqF
      obtain ⟨herr0, ⟨k, hak, hk1, _, _, _⟩, ⟨qg, hqg, hqga, hqgr, hqgp, hqgs⟩, _⟩ :=
        qgLoop_ok_spec o cfg _ _ _ _ _ _ heqF
      have herrP := fbPrep_ok_error heqP
      cases h
      refine ⟨?_, ?_, ⟨qg, by simpa using hqg, by simpa using hqga, ?_⟩⟩
      · simp
      · simp [herr0, herrP]
      · simp only [hak]
        omega

/-- For a `style_editor` feedback re-run the whole stage trace is the
quality-gate loop's: it opens with the polish stage, never contains the
researcher stage, and its polish count equals the returned attempts. -/
lemma run_pipeline_with_feedback_style_editor_spec {o : Oracle} {cfg : RubricConfig}
    {snap st0 : RunState} {fb : String} {r : PipelineOk}
    (h : run_pipeline_with_feedback o cfg snap st0 FBStage.style_editor fb = .ok r) :
    (∃ t, r.c.tr = StageName.style_editor :: t) ∧
    StageName.researcher ∉ r.c.tr ∧
    r.c.tr.count StageName.style_editor = r.attempts ∧
    StageName.writer ∉ r.c.tr.take 1 ∧
    StageName.fact_checker ∉ r.c.tr.take 1 := by
  simp only [run_pipeline_with_feedback, fbPrep_style_editor] at h
  split at h
  · exact absurd h (by simp)
  · rename_i r0 heqF
    obtain ⟨_, ⟨k, hak, hk1, _, hcs, _⟩, _, ⟨t, htr, htp⟩⟩ :=
      qgLoop_ok_spec o cfg _ _ _ _ _ _ heqF
    simp only [ctx_log_tr, List.nil_append] at htr hcs
    cases h
    refine ⟨⟨t, by simp [htr]⟩, ?_, ?_, by simp [htr], by simp [htr]⟩
    · intro hmem
      simp only [ctx_log_tr, ctx_setStatus_tr, htr] at hmem
      rcases List.mem_cons.mp hmem with heq | hmem2
      · exact absurd heq (by simp)
      · exact htp _ hmem2 rfl
    · have h2 : (StageName.style_editor :: t).count StageName.style_editor = k := by
        rw [htr] at hcs
        simpa using hcs
      simp only [ctx_log_tr, ctx_setStatus_tr, htr, h2, hak]
      omega

lemma status_ite_iff {s : String} {b : Bool}
    (h : s = (if b then "DONE" else "DONE_WITH_WARNINGS")) :
    (s = "DONE" ↔ b = true) ∧ (s = "DONE" ∨ s = "DONE_WITH_WARNINGS") := by
  cases b <;> simp at h <;> simp [h]

/-! ## Claim C1: terminal status -/

/-- C1: whenever either pipeline completes without an uncaught stage
exception, its terminal status is DONE exactly when the final
`fact_passed` flag is true, the last rubric passed and review is not
required, and DONE_WITH_WARNINGS otherwise; moreover every execution
attempt through the HTTP entry points (on a non-RUNNING run) leaves the
run in exactly one of DONE, DONE_WITH_WARNINGS, ERROR. -/
theorem claim_C1_terminal_status :
    (∀ (o : Oracle) (cfg : RubricConfig) (st0 : RunState) (r : PipelineOk),
      run_pipeline o cfg st0 = .ok r →
      (r.c.st.status = "DONE" ↔
        (r.fact_passed = true ∧ r.rubric.passed = true ∧ r.review_required = false)) ∧
      (r.c.st.status = "DONE" ∨ r.c.st.status = "DONE_WITH_WARNINGS")) ∧
    (∀ (o : Oracle) (cfg : RubricConfig) (snap st0 : RunState) (stage : FBStage)
        (fb : String) (r : PipelineOk),
      run_pipeline_with_feedback o cfg snap st0 stage fb = .ok r →
      (r.c.st.status = "DONE" ↔
        (r.fact_passed = true ∧ r.rubric.passed = true ∧ r.review_required = false)) ∧
      (r.c.st.status = "DONE" ∨ r.c.st.status = "DONE_WITH_WARNINGS")) ∧
    (∀ (o : Oracle) (cfg : RubricConfig) (st : RunState),
      st.status ≠ "RUNNING" →
      ∃ s', (execute_run o cfg (some st)).2.1 = some s' ∧
        (s'.status = "DONE" ∨ s'.status = "DONE_WITH_WARNINGS" ∨ s'.status = "ERROR")) ∧
    (∀ (o : Oracle) (cfg : RubricConfig) (st : RunState) (stage : FBStage)
        (fb : String),
      st.status ≠ "RUNNING" →
      ∃ s', (submit_feedback o cfg (some st) stage fb).2.1 = some s' ∧
        (s'.status = "DONE" ∨ s'.status = "DONE_WITH_WARNINGS" ∨ s'.status = "ERROR")) := by
  refine ⟨?_, ?_, ?_, ?_⟩
  · intro o cfg st0 r h
    obtain ⟨h1, h2⟩ := status_ite_iff (run_pipeline_ok_spec h).1
    refine ⟨?_, h2⟩
    rw [h1]
    simp [Bool.and_eq_true, Bool.not_eq_true']
    tauto
  · intro o cfg snap st0 stage fb r h
    obtain ⟨h1, h2⟩ := status_ite_iff (run_pipeline_with_feedback_ok_spec h).1
    refine ⟨?_, h2⟩
    rw [h1]
    simp [Bool.and_eq_true, Bool.not_eq_true']
    tauto
  · intro o cfg st hne
    simp only [execute_run, if_neg hne]
    cases hres : run_pipeline o cfg st with
    | ok r =>
      obtain ⟨_, h2⟩ := status_ite_iff (run_pipeline_ok_spec hres).1
      exact ⟨r.c.st, rfl, by tauto⟩
    | error p =>
      obtain ⟨e, c⟩ := p
      exact ⟨set_status c.st "ERROR" (some e), rfl, by simp⟩
  · intro o cfg st stage fb hne
    simp only [submit_feedback, if_neg hne]
    cases hres : run_pipeline_with_feedback o cfg st (add_feedback st stage.str fb) stage fb with
    | ok r =>
      obtain ⟨_, h2⟩ := status_ite_iff (run_pipeline_with_feedback_ok_spec hres).1
      exact ⟨r.c.st, rfl, by tauto⟩
    | error p =>
      obtain ⟨e, c⟩ := p
      exact ⟨set_status c.st "ERROR" (some e), rfl, by simp⟩

/-- Witness for C1: a pending run executed under the co-operative
executor ends in one of the three terminal statuses. -/
theorem claim_C1_witness :
    ∃ s', (execute_run oracleHappy defaultCfg (some runPending)).2.1 = some s' ∧
      (s'.status = "DONE" ∨ s'.status = "DONE_WITH_WARNINGS" ∨ s'.status = "ERROR") :=
  claim_C1_terminal_status.2.2.1 oracleHappy defaultCfg runPending (by decide)

/-! ## Claim C9: RUNNING runs reject a second execution -/

/-- C9: a call to either entry point for a run whose persisted status is
RUNNING is rejected as a 409 conflict before any pipeline stage is
invoked (empty stage trace), and the rejected call leaves the persisted
run record completely unchanged — no status change, no feedback entry,
no log entry. -/
theorem claim_C9_running_conflict :
    (∀ (o : Oracle) (cfg : RubricConfig) (st : RunState),
      st.status = "RUNNING" →
      execute_run o cfg (some st) = (ApiOutcome.conflict, some st, [])) ∧
    (∀ (o : Oracle) (cfg : RubricConfig) (st : RunState) (stage : FBStage)
        (fb : String),
      st.status = "RUNNING" →
      submit_feedback o cfg (some st) stage fb = (ApiOutcome.conflict, some st, [])) := by
  constructor
  · intro o cfg st h
    simp [execute_run, h]
  · intro o cfg st stage fb h
    simp [submit_feedback, h]

/-- A run record currently marked RUNNING. -/
def runRunning : RunState := { runPending with status := "RUNNING" }

/-- Witness for C9: the concrete RUNNING run is rejected by both entry
points with its state untouched. -/
theorem claim_C9_witness :
    execute_run oracleHappy defaultCfg (some runRunning) =
      (ApiOutcome.conflict, some runRunning, []) ∧
    submit_feedback oracleHappy defaultCfg (some runRunning) FBStage.style_editor "x" =
      (ApiOutcome.conflict, some runRunning, []) :=
  ⟨claim_C9_running_conflict.1 oracleHappy defaultCfg runRunning rfl,
   claim_C9_running_conflict.2 oracleHappy defaultCfg runRunning FBStage.style_editor "x" rfl⟩

/-! ## Claim C10: the error field is never cleared -/

/-- C10: `set_status` stores its error argument only when it is a
non-empty string and otherwise leaves the stored value untouched, and a
feedback-driven re-run that completes without an uncaught exception
carries the store's previous `error` value into its final state — a run
that once failed keeps the stale error message even after completing
with DONE or DONE_WITH_WARNINGS. -/
theorem claim_C10_error_never_cleared :
    (∀ (st : RunState) (s : String), (set_status st s none).error = st.error) ∧
    (∀ (st : RunState) (s : String), (set_status st s (some "")).error = st.error) ∧
    (∀ (st : RunState) (s e : String), e ≠ "" →
      (set_status st s (some e)).error = some e) ∧
    (∀ (o : Oracle) (cfg : RubricConfig) (snap st0 : RunState) (stage : FBStage)
        (fb : String) (r : PipelineOk),
      run_pipeline_with_feedback o cfg snap st0 stage fb = .ok r →
      r.c.st.error = st0.error) := by
  refine ⟨fun st s => rfl, fun st s => by simp [set_status], ?_, ?_⟩
  · intro st s e he
    simp [set_status, he]
  · intro o cfg snap st0 stage fb r h
    exact (run_pipeline_with_feedback_ok_spec h).2.1

/-- A run that previously failed: terminal status ERROR with a stored
error message, but with an existing draft and fact-check history. -/
def runErrored : RunState :=
  { inputs_prd := "my prd"
    status := "ERROR"
    research := none
    drafts := [{ iteration := 1, text := "draft one" }]
    fact_checks := [{ iteration := 1, passed := true, issues := [],
                      rewrite_instructions := "" }]
    final := none
    rubric := none
    citations := []
    feedback := []
    quality_gate := none
    error := some "boom"
    logs := [] }

/-- Witness for C10: re-entering the failed run through the feedback
path and completing leaves the stale "boom" error in place, and a
non-empty error argument is stored. -/
theorem claim_C10_witness :
    ((set_status runPending "ERROR" (some "boom")).error = some "boom") ∧
    ∃ r, run_pipeline_with_feedback oracleHappy defaultCfg runErrored runErrored
        FBStage.style_editor "polish it" = .ok r ∧
      r.c.st.error = some "boom" := by
  refine ⟨claim_C10_error_never_cleared.2.2.1 runPending "ERROR" "boom" (by decide), ?_⟩
  cases hres : run_pipeline_with_feedback oracleHappy defaultCfg runErrored runErrored
      FBStage.style_editor "polish it" with
  | error p =>
    have hok : exceptOk (run_pipeline_with_feedback oracleHappy defaultCfg runErrored
        runErrored FBStage.style_editor "polish it") = true := by decide
    rw [hres] at hok
    simp [exceptOk] at hok
  | ok r =>
    have := claim_C10_error_never_cleared.2.2.2 oracleHappy defaultCfg runErrored
      runErrored FBStage.style_editor "polish it" r hres
    exact ⟨r, rfl, this⟩

/-! ## Claim C8: append_step on a non-sequence value -/

lemma lookupJ_setJ (steps : List (String × JVal)) (key : String) (v : JVal) :
    lookupJ (setJ steps key v) key = some v := by
  induction steps with
  | nil => simp [setJ, lookupJ]
  | cons kv rest ih =>
    obtain ⟨k, w⟩ := kv
    by_cases hk : k = key
    · simp [setJ, lookupJ, hk]
    · simp [setJ, lookupJ, hk, ih]

/-- A `steps` object whose `drafts` key holds a plain string instead of
a list. -/
def stepsCorrupted : List (String × JVal) := [("drafts", JVal.str "corrupted")]

/-- Counterexample to C8: when the target key exists but is not a
sequence, `append_step` does not fail at all — it returns normally,
silently discarding the stored value and replacing it with a fresh
one-element list. -/
theorem claim_C8_counterexample :
    append_step stepsCorrupted "drafts" (JVal.str "new") =
      [("drafts", JVal.arr [JVal.str "new"])] := rfl

/-- C8 (amended): whenever the target key exists with a non-list value,
`append_step` succeeds and overwrites it with the one-element list
containing only the new item, losing the previous value. -/
theorem claim_C8_append_silently_resets
    (steps : List (String × JVal)) (key : String) (v w : JVal)
    (hw : lookupJ steps key = some w)
    (hnl : ∀ xs, w ≠ JVal.arr xs) :
    lookupJ (append_step steps key v) key = some (JVal.arr [v]) := by
  unfold append_step
  rw [hw]
  have hbase : (match some w with
      | some (JVal.arr xs) => xs
      | _ => ([] : List JVal)) = [] := by
    cases w with
    | arr xs => exact absurd rfl (hnl xs)
    | null => rfl
    | str s => rfl
    | num q => rfl
    | bool b => rfl
    | obj kvs => rfl
  rw [hbase]
  exact lookupJ_setJ steps key (JVal.arr [v])

/-- Witness for C8 (amended): a numeric `drafts` value is silently
replaced by the singleton list of the appended item. -/
theorem claim_C8_witness :
    lookupJ (append_step [("drafts", JVal.num 7)] "drafts" (JVal.bool true)) "drafts" =
      some (JVal.arr [JVal.bool true]) :=
  claim_C8_append_silently_resets [("drafts", JVal.num 7)] "drafts"
    (JVal.bool true) (JVal.num 7) rfl (fun xs h => by cases h)

/-! ## Claim C6: malformed research output -/

/-- A parsed research source without an `id` key. -/
def sourceNoId : Source :=
  { id := none, title := none, url := none, query := none, key_facts := [] }

/-- A parsed research payload whose single source lacks an `id`. -/
def docMissingId : ResearchDoc :=
  { queries := [], sources := some [sourceNoId], summary_facts := [], unknowns := [] }

/-- A parsed research payload with an empty source list. -/
def docEmptySources : ResearchDoc :=
  { queries := [], sources := some [], summary_facts := [], unknowns := [] }

/-- The co-operative executor except that research parses to a dict
whose source lacks an `id`. -/
def oracleBadResearch : Oracle :=
  { research := fun _ => .ok (some docMissingId)
    writes := fun _ => .ok "draft text"
    factChecks := fun _ => .ok (some
      { passed := some true, issues := some [], rewrite_instructions := some "" })
    polishes := fun _ => .ok "polished text"
    grades := fun _ => .ok (some
      { scores := none
        top := { clarity := some 5, correctness := some 5,
                 completeness := some 5, overall := none }
        strengths := none, weaknesses := none, recommendations := none }) }

/-- The co-operative executor except that research parses to a dict
with an empty source list. -/
def oracleEmptySources : Oracle :=
  { research := fun _ => .ok (some docEmptySources)
    writes := fun _ => .ok "draft text"
    factChecks := fun _ => .ok (some
      { passed := some true, issues := some [], rewrite_instructions := some "" })
    polishes := fun _ => .ok "polished text"
    grades := fun _ => .ok (some
      { scores := none
        top := { clarity := some 5, correctness := some 5,
                 completeness := some 5, overall := none }
        strengths := none, weaknesses := none, recommendations := none }) }

/-- The co-operative executor except that research output does not
parse to a dict at all. -/
def oracleNoParse : Oracle :=
  { research := fun _ => .ok none
    writes := fun _ => .ok "draft text"
    factChecks := fun _ => .ok (some
      { passed := some true, issues := some [], rewrite_instructions := some "" })
    polishes := fun _ => .ok "polished text"
    grades := fun _ => .ok (some
      { scores := none
        top := { clarity := some 5, correctness := some 5,
                 completeness := some 5, overall := none }
        strengths := none, weaknesses := none, recommendations := none }) }

/-- Counterexample to C6: a research output that parses to a dict whose
source lacks an `id` fails validation, yet no synthetic source is
substituted; the citation derivation then raises `KeyError` and the run
ends in status ERROR — contradicting the claim that a malformed
research output never aborts the run. -/
theorem claim_C6_counterexample :
    ((execute_run oracleBadResearch defaultCfg (some runPending)).2.1.map
      (fun s => s.status)) = some "ERROR" := by decide

/-- C6 (amended): the synthetic single-source substitution happens only
when the research output parses to no dict at all; a parsed dict that
fails validation is kept unchanged with a soft-failure warning and the
pipeline continues — except that a parsed source without an `id` makes
the citation derivation raise, which aborts the run (status ERROR, per
the counterexample). -/
theorem claim_C6_research_substitution :
    (∀ prd, researchSubstitute none prd = syntheticResearch prd) ∧
    (∀ (d : ResearchDoc) (prd : String), researchSubstitute (some d) prd = d) ∧
    buildCitations [sourceNoId] = .error ("KeyError: id") ∧
    validate_research (some docEmptySources) = false ∧
    ((execute_run oracleEmptySources defaultCfg (some runPending)).2.1.map
        (fun s => (s.status, s.research))) =
      some ("DONE", some docEmptySources) ∧
    ((execute_run oracleNoParse defaultCfg (some runPending)).2.1.map
        (fun s => (s.status,
          s.research.map (fun d => d.sources.map (fun l => l.map Source.id))))) =
      some ("DONE", some (some [some "S0"])) := by
  refine ⟨fun prd => rfl, fun d prd => rfl, rfl, rfl, by decide, by decide⟩

/-! ## Claim C7: style_editor feedback re-runs -/

/-- A completed run holding a final draft and a passing fact-check. -/
def runDoneWithDraft : RunState :=
  { inputs_prd := "my prd"
    status := "DONE"
    research := none
    drafts := [{ iteration := 1, text := "draft one" }]
    fact_checks := [{ iteration := 1, passed := true, issues := [],
                      rewrite_instructions := "" }]
    final := some "old final"
    rubric := none
    citations := []
    feedback := []
    quality_gate := none
    error := none
    logs := [] }

/-- A grader payload below the default floors. -/
def lowRubricRaw : RubricRaw :=
  { scores := none
    top := { clarity := some 2, correctness := some 2,
             completeness := some 2, overall := none }
    strengths := none, weaknesses := none, recommendations := none }

/-- A stage executor whose first grading attempt fails the default
thresholds and whose second passes, triggering exactly one quality-gate
rollback. -/
def oracleQGFail : Oracle :=
  { research := fun _ => .ok none
    writes := fun _ => .ok "rollback draft"
    factChecks := fun _ => .ok (some
      { passed := some true, issues := some [], rewrite_instructions := some "" })
    polishes := fun _ => .ok "polished text"
    grades := fun n =>
      if n = 0 then .ok (some lowRubricRaw)
      else .ok (some
        { scores := none
          top := { clarity := some 5, correctness := some 5,
                   completeness := some 5, overall := none }
          strengths := none, weaknesses := none, recommendations := none }) }

/-- Counterexample to C7: a `style_editor` feedback re-run on a run
with an existing draft can still invoke the write stage — the
quality-gate rollback re-invokes writer (and fact-checker) when the
first grading attempt fails; here the write stage appears in the
execution's stage trace. -/
theorem claim_C7_counterexample :
    StageName.writer ∈
      (submit_feedback oracleQGFail defaultCfg (some runDoneWithDraft)
        FBStage.style_editor "make it punchier").2.2 := by decide

/-- C7 (amended): a `style_editor` feedback re-run never invokes the
research stage, enters the quality gate immediately (the first stage
invoked is polish, with no write or fact-check before it), and persists
a fresh `quality_gate` snapshot whose attempts counter equals the
number of polish invocations of this execution (at least one); write
and fact-check may still run, but only inside quality-gate rollback. -/
theorem claim_C7_style_editor_scope :
    ∀ (o : Oracle) (cfg : RubricConfig) (snap st0 : RunState) (fb : String)
      (r : PipelineOk),
      run_pipeline_with_feedback o cfg snap st0 FBStage.style_editor fb = .ok r →
      StageName.researcher ∉ r.c.tr ∧
      (∃ t, r.c.tr = StageName.style_editor :: t) ∧
      r.c.tr.count StageName.style_editor = r.attempts ∧
      (∃ qg, r.c.st.quality_gate = some qg ∧ qg.attempts = r.attempts ∧
        1 ≤ r.attempts) := by
  intro o cfg snap st0 fb r h
  obtain ⟨⟨t, ht⟩, hnr, hcount, _, _⟩ := run_pipeline_with_feedback_style_editor_spec h
  obtain ⟨_, _, hqg⟩ := run_pipeline_with_feedback_ok_spec h
  exact ⟨hnr, ⟨t, ht⟩, hcount, hqg⟩

/-- Witness for C7 (amended): the concrete rollback execution still
invokes no research stage and persists a fresh quality-gate snapshot. -/
theorem claim_C7_witness :
    ∃ r, run_pipeline_with_feedback oracleQGFail defaultCfg runDoneWithDraft
        runDoneWithDraft FBStage.style_editor "make it punchier" = .ok r ∧
      StageName.researcher ∉ r.c.tr ∧
      (∃ qg, r.c.st.quality_gate = some qg ∧ qg.attempts = r.attempts ∧
        1 ≤ r.attempts) := by
  cases hres : run_pipeline_with_feedback oracleQGFail defaultCfg runDoneWithDraft
      runDoneWithDraft FBStage.style_editor "make it punchier" with
  | error p =>
    have hok : exceptOk (run_pipeline_with_feedback oracleQGFail defaultCfg
        runDoneWithDraft runDoneWithDraft FBStage.style_editor "make it punchier") = true := by
      decide
    rw [hres] at hok
    simp [exceptOk] at hok
  | ok r =>
    obtain ⟨hnr, _, _, hqg⟩ := claim_C7_style_editor_scope oracleQGFail defaultCfg
      runDoneWithDraft runDoneWithDraft "make it punchier" r hres
    exact ⟨r, rfl, hnr, hqg⟩

end Shinra
